import Mathlib

/-!
Verification of the email-reply bot (`tasks.py`): a shallow embedding of the
pipeline (prompt building, model-response JSON parsing, HTML rendering of the
reply, and the work-item loop), followed by theorems about the claims of the
specification.

Python values produced by `json.loads` are modelled by the inductive type
`Json` (JSON numbers are modelled as integers; float literals are out of
scope and are rejected by the modelled parser).  Python exceptions are
modelled by `PyExc`; fallible Python code returns `Except PyExc`.  External
services (the OpenAI chat-completion call and the SendGrid send call) are
modelled as inputs of the loop: each work item carries the response object
the completion call returned and whether the send call raised.
-/

/-- Python exceptions relevant to the pipeline. -/
inductive PyExc where
  | keyError (key : String)
  | indexError (msg : String)
  | typeError (msg : String)
  | attributeError (msg : String)
  | jsonDecodeError (msg : String)
deriving Repr, DecidableEq

/-- Values produced by Python's `json.loads` (numbers modelled as integers). -/
inductive Json where
  | null
  | bool (b : Bool)
  | num (n : Int)
  | str (s : String)
  | arr (xs : List Json)
  | obj (kvs : List (String × Json))

/-- The Python type name of a decoded JSON value, as used in error messages. -/
def jsonTypeName : Json → String
  | Json.null => "NoneType"
  | Json.bool _ => "bool"
  | Json.num _ => "int"
  | Json.str _ => "str"
  | Json.arr _ => "list"
  | Json.obj _ => "dict"

/-- Key lookup in a decoded JSON object (Python `dict` lookup; objects built
by the modelled parser have unique keys, so first match suffices). -/
def lookupJ : List (String × Json) → String → Option Json
  | [], _ => none
  | (k, v) :: rest, key => if k = key then some v else lookupJ rest key

/-- Insertion during object parsing: Python dicts keep the first position of a
key and the last value assigned to it. -/
def insertKV (acc : List (String × Json)) (k : String) (v : Json) :
    List (String × Json) :=
  if acc.any (fun p => p.1 == k) then
    acc.map (fun p => if p.1 == k then (p.1, v) else p)
  else acc ++ [(k, v)]

mutual

/-- Python `repr` of a decoded JSON value. -/
def pyRepr : Json → String
  | Json.null => "None"
  | Json.bool true => "True"
  | Json.bool false => "False"
  | Json.num n => toString n
  | Json.str s => "\x27" ++ s ++ "\x27"
  | Json.arr xs => "[" ++ pyReprList xs ++ "]"
  | Json.obj kvs => "\x7b" ++ pyReprObj kvs ++ "\x7d"

/-- Comma-separated `repr` of list elements. -/
def pyReprList : List Json → String
  | [] => ""
  | [x] => pyRepr x
  | x :: y :: rest => pyRepr x ++ ", " ++ pyReprList (y :: rest)

/-- Comma-separated `repr` of dict entries. -/
def pyReprObj : List (String × Json) → String
  | [] => ""
  | [(k, v)] => "\x27" ++ k ++ "\x27: " ++ pyRepr v
  | (k, v) :: p :: rest =>
    "\x27" ++ k ++ "\x27: " ++ pyRepr v ++ ", " ++ pyReprObj (p :: rest)

end

/-- Python `str()` of a decoded JSON value, as interpolated by an f-string. -/
def pyStr : Json → String
  | Json.str s => s
  | v => pyRepr v

/-- Python `value.get(key, default)`: defaulting lookup on dicts, raises
`AttributeError` on every other decoded-JSON value. -/
def pyGet (v : Json) (key : String) (dflt : Json) : Except PyExc Json :=
  match v with
  | Json.obj kvs => .ok ((lookupJ kvs key).getD dflt)
  | _ => .error (.attributeError
      ("\x27" ++ jsonTypeName v ++ "\x27 object has no attribute \x27get\x27"))

/-- Python `value[key]` for a string key. -/
def pyIndexKey (v : Json) (key : String) : Except PyExc Json :=
  match v with
  | Json.obj kvs =>
    match lookupJ kvs key with
    | some r => .ok r
    | none => .error (.keyError key)
  | Json.arr _ => .error (.typeError "list indices must be integers or slices, not str")
  | Json.str _ => .error (.typeError "string indices must be integers")
  | _ => .error (.typeError
      ("\x27" ++ jsonTypeName v ++ "\x27 object is not subscriptable"))

/-- Python `value[n]` for a non-negative integer index. -/
def pyIndexNat (v : Json) (n : Nat) : Except PyExc Json :=
  match v with
  | Json.arr xs =>
    match xs.get? n with
    | some x => .ok x
    | none => .error (.indexError "list index out of range")
  | Json.str s =>
    match s.data.get? n with
    | some c => .ok (Json.str ⟨[c]⟩)
    | none => .error (.indexError "string index out of range")
  | Json.obj _ => .error (.keyError (toString n))
  | _ => .error (.typeError
      ("\x27" ++ jsonTypeName v ++ "\x27 object is not subscriptable"))

/-- Python iteration (`for x in v`) over a decoded JSON value: lists yield
their elements, strings their characters, dicts their keys. -/
def pyIter (v : Json) : Except PyExc (List Json) :=
  match v with
  | Json.arr xs => .ok xs
  | Json.str s => .ok (s.data.map (fun c => Json.str ⟨[c]⟩))
  | Json.obj kvs => .ok (kvs.map (fun p => Json.str p.1))
  | _ => .error (.typeError
      ("\x27" ++ jsonTypeName v ++ "\x27 object is not iterable"))

/-- Check that every element is a string, as `str.join` requires. -/
def asStrList : List Json → Except PyExc (List String)
  | [] => .ok []
  | Json.str s :: rest => do
    let r ← asStrList rest
    .ok (s :: r)
  | v :: _ => .error (.typeError
      ("sequence item: expected str instance, " ++ jsonTypeName v ++ " found"))

/-- Python `" ".join(v)`. -/
def pyJoinSpace (v : Json) : Except PyExc String := do
  let xs ← pyIter v
  let ss ← asStrList xs
  .ok (String.intercalate " " ss)

/-- Skip JSON whitespace. -/
def skipWs : List Char → List Char
  | c :: rest =>
    if c = ' ' ∨ c = '\n' ∨ c = '\t' ∨ c = '\r' then skipWs rest else c :: rest
  | [] => []

/-- Parse the remainder of a JSON string literal (after the opening quote).
The `\u` escape is not modelled. -/
def parseJString : List Char → Except PyExc (String × List Char)
  | [] => .error (.jsonDecodeError "Unterminated string")
  | c :: rest =>
    if c = '"' then .ok ("", rest)
    else if c = '\\' then
      match rest with
      | [] => .error (.jsonDecodeError "Unterminated string")
      | e :: rest2 =>
        let esc : Except PyExc Char :=
          if e = '"' then .ok '"'
          else if e = '\\' then .ok '\\'
          else if e = '/' then .ok '/'
          else if e = 'n' then .ok '\n'
          else if e = 't' then .ok '\t'
          else if e = 'r' then .ok '\r'
          else if e = 'b' then .ok (Char.ofNat 8)
          else if e = 'f' then .ok (Char.ofNat 12)
          else .error (.jsonDecodeError "Invalid or unmodelled escape")
        match esc with
        | .error err => .error err
        | .ok ec =>
          match parseJString rest2 with
          | .error err => .error err
          | .ok (s, r) => .ok (⟨ec :: s.data⟩, r)
    else
      match parseJString rest with
      | .error err => .error err
      | .ok (s, r) => .ok (⟨c :: s.data⟩, r)

/-- Parse a run of decimal digits. -/
def parseDigits (acc : Nat) : List Char → (Nat × List Char)
  | c :: rest =>
    if '0' ≤ c ∧ c ≤ '9' then
      parseDigits (10 * acc + (c.toNat - 48)) rest
    else (acc, c :: rest)
  | [] => (acc, [])

/-- Parse a JSON number (integers only; float literals are not modelled). -/
def parseNumber (l : List Char) : Except PyExc (Json × List Char) :=
  let (neg, l1) : Bool × List Char :=
    match l with
    | '-' :: rest => (true, rest)
    | _ => (false, l)
  match l1 with
  | c :: _ =>
    if '0' ≤ c ∧ c ≤ '9' then
      let (n, r) := parseDigits 0 l1
      match r with
      | '.' :: _ => .error (.jsonDecodeError "float literals not modelled")
      | 'e' :: _ => .error (.jsonDecodeError "float literals not modelled")
      | 'E' :: _ => .error (.jsonDecodeError "float literals not modelled")
      | _ => .ok (Json.num (if neg then -(n : Int) else (n : Int)), r)
    else .error (.jsonDecodeError "Expecting value")
  | [] => .error (.jsonDecodeError "Expecting value")

/-- Expect a literal keyword tail such as `rue` of `true`. -/
def expectLit (lit : List Char) (l : List Char) (v : Json) :
    Except PyExc (Json × List Char) :=
  if lit.isPrefixOf l then .ok (v, l.drop lit.length)
  else .error (.jsonDecodeError "Expecting value")

mutual

/-- Recursive-descent JSON value parser (fuel-indexed). -/
def parseValue : Nat → List Char → Except PyExc (Json × List Char)
  | 0, _ => .error (.jsonDecodeError "input too deeply nested")
  | fuel + 1, l =>
    match skipWs l with
    | [] => .error (.jsonDecodeError "Expecting value")
    | c :: rest =>
      if c = '\x7b' then
        match skipWs rest with
        | '\x7d' :: rest2 => .ok (Json.obj [], rest2)
        | l2 => parseMembers fuel [] l2
      else if c = '[' then
        match skipWs rest with
        | ']' :: rest2 => .ok (Json.arr [], rest2)
        | l2 => parseElements fuel [] l2
      else if c = '"' then
        match parseJString rest with
        | .error err => .error err
        | .ok (s, r) => .ok (Json.str s, r)
      else if c = 't' then expectLit ['r', 'u', 'e'] rest (Json.bool true)
      else if c = 'f' then expectLit ['a', 'l', 's', 'e'] rest (Json.bool false)
      else if c = 'n' then expectLit ['u', 'l', 'l'] rest Json.null
      else parseNumber (c :: rest)

/-- Parse the elements of a non-empty JSON array. -/
def parseElements : Nat → List Json → List Char → Except PyExc (Json × List Char)
  | 0, _, _ => .error (.jsonDecodeError "input too deeply nested")
  | fuel + 1, acc, l =>
    match parseValue fuel l with
    | .error err => .error err
    | .ok (v, r) =>
      match skipWs r with
      | ',' :: r2 => parseElements fuel (acc ++ [v]) r2
      | ']' :: r2 => .ok (Json.arr (acc ++ [v]), r2)
      | _ => .error (.jsonDecodeError "Expecting \x27,\x27 delimiter")

/-- Parse the members of a non-empty JSON object. -/
def parseMembers : Nat → List (String × Json) → List Char →
    Except PyExc (Json × List Char)
  | 0, _, _ => .error (.jsonDecodeError "input too deeply nested")
  | fuel + 1, acc, l =>
    match skipWs l with
    | '"' :: r =>
      match parseJString r with
      | .error err => .error err
      | .ok (k, r1) =>
        match skipWs r1 with
        | ':' :: r2 =>
          match parseValue fuel r2 with
          | .error err => .error err
          | .ok (v, r3) =>
            let acc2 := insertKV acc k v
            match skipWs r3 with
            | ',' :: r4 => parseMembers fuel acc2 r4
            | '\x7d' :: r4 => .ok (Json.obj acc2, r4)
            | _ => .error (.jsonDecodeError "Expecting \x27,\x27 delimiter")
        | _ => .error (.jsonDecodeError "Expecting \x27:\x27 delimiter")
    | _ => .error (.jsonDecodeError "Expecting property name enclosed in double quotes")

end

/-- Python `json.loads`: parse a whole string as one JSON value. -/
def json_loads (s : String) : Except PyExc Json :=
  match parseValue (2 * s.data.length + 2) s.data with
  | .error err => .error err
  | .ok (v, r) =>
    if (skipWs r).isEmpty then .ok v
    else .error (.jsonDecodeError "Extra data")

/-- Bool-valued list prefix test used by the modelled `str.replace`. -/
def isPre : List Char → List Char → Bool
  | [], _ => true
  | _ :: _, [] => false
  | a :: as, b :: bs => a == b && isPre as bs

/-- Core of Python `str.replace`: replace every leftmost non-overlapping
occurrence of `old` by `new` (Python's behaviour for a non-empty `old`;
the pipeline only replaces the non-empty token `--DISCUSSION--`). -/
def pyReplaceAux (old new : List Char) (l : List Char) : List Char :=
  match l with
  | [] => []
  | c :: rest =>
    if h : 0 < old.length ∧ isPre old (c :: rest) = true then
      new ++ pyReplaceAux old new ((c :: rest).drop old.length)
    else
      c :: pyReplaceAux old new rest
termination_by l.length
decreasing_by
  · simp only [List.length_drop, List.length_cons]
    omega
  · simp only [List.length_cons]
    omega

/-- Python `s.replace(old, new)`. -/
def pyReplace (s old new : String) : String :=
  ⟨pyReplaceAux old.data new.data s.data⟩

/-- Line 1 of the prompt template. -/
def tp1 : String := "Acting as a helper to a payment collections agent for a B2B company, your task is to get the relevant data out of the email discussion with the customer. The email thread is about unpaid invoices.\n"

/-- Line 2 of the prompt template. -/
def tp2 : String := "\n"

/-- Line 3 of the prompt template. -/
def tp3 : String := "Your specific task is to return data per each separate invoice in the thread, indicating what customer has responded to each of the invoices payment status. Produce a JSON-formatted response only.\n"

/-- Line 4 of the prompt template. -/
def tp4 : String := "\n"

/-- Line 5 of the prompt template. -/
def tp5 : String := "This is the email conversation between the agent and the customer:\n"

/-- The hashes opening the placeholder line. -/
def tp6 : String := "##"

/-- The part of `PROMPT_TEMPLATE` before the `--DISCUSSION--` token, minus
its final `#`. -/
def discussionPreA : String := tp1 ++ tp2 ++ tp3 ++ tp4 ++ tp5 ++ tp6

/-- The prefix of `PROMPT_TEMPLATE` ending right before `--DISCUSSION--`. -/
def discussionPre : String := discussionPreA ++ "#"

/-- Template line piece after the placeholder. -/
def ts1 : String := "##\n"

/-- Template line piece. -/
def ts2 : String := "\n"

/-- Template line piece. -/
def ts3 : String := "The response must be in the JSON format containing the following keys and values:\n"

/-- Template line piece. -/
def ts4 : String := "\x7b\n"

/-- Template line piece. -/
def ts5 : String := "\"summary\": \"summary of the entire conversation in max 3 sentences\",\n"

/-- Template line piece. -/
def ts6 : String := "\"account_id\": \"account id of the customer, typically found in the subject line\",\n"

/-- Template line piece (first half of the `invoices` line). -/
def ts7 : String := "\"invoices\": \"list of JSON elements that have following data for each invoice covered in the discussion: invoice_id, total_value, currency, status (based on the information on the discussion, the status can be one of the following \x27paid\x27, \x27payment_promised\x27, \x27dispute\x27, \x27request_info\x27, \x27waiting_approval\x27 or \x27other\x27, "

/-- Template line piece (second half of the `invoices` line). -/
def ts8 : String := "see detailed descriptions of these statuses later in the prompt), promised_payment_date (the date customer has indicated the payment will be made in the format YYYY-MM-DD if status is payment_promised, otherwise the value is empty string) and summary (this should contain an invoice specific summary of what has customer said specifically about this invoice in one sentence\",\n"

/-- Template line piece. -/
def ts9 : String := "\"suggested_reply\": \"recommend a reply to the customer to his last message based on the information in the discussion so far, with the goal of providing the customer with the information he needs to proceed with the payment(s). Use placeholders for content that you don\x27t have available.\",\n"

/-- Template line piece. -/
def ts10 : String := "\x7d\n"

/-- Template line piece. -/
def ts11 : String := "\n"

/-- Template line piece. -/
def ts12 : String := "Description of the statuses in the above JSON format:\n"

/-- Template line piece. -/
def ts13 : String := "- paid: customer has indicated that this invoice has already been paid\n"

/-- Template line piece. -/
def ts14 : String := "- payment_promised: customer indicates an intention that the invoice will be paid at a certain date. In this case enter the date in promised_payment_date key in the JSON.\n"

/-- Template line piece. -/
def ts15 : String := "- dispute: customer disputes or rejects the invoice for any reason.\n"

/-- Template line piece. -/
def ts16 : String := "- request_info: customer has asked for more information such as copy of the invoice\n"

/-- Template line piece. -/
def ts17 : String := "- waiting_approval: customer indicates that their business owner or buyer has still to approve the invoice before the payment can be scheduled\n"

/-- Template line piece. -/
def ts18 : String := "- other: anything other than above\n"

/-- Template line piece. -/
def ts19 : String := "\n"

/-- Template line piece. -/
def ts20 : String := "Make sure that the `invoices` list will contain the correct promised payment date, if it is mentioned that the invoice will be or was paid at a specific date, or empty string otherwise.\n"

/-- Template line piece. -/
def ts21 : String := "\n"

/-- Template line piece. -/
def ts22 : String := "Please give only the properly structured JSON in the response (not code, not comments, not anything else):\n"

/-- The part of `PROMPT_TEMPLATE` after the `--DISCUSSION--` token, minus
its leading `#`. -/
def discussionSufZ : String :=
  ts1 ++ ts2 ++ ts3 ++ ts4 ++ ts5 ++ ts6 ++ ts7 ++ ts8 ++ ts9 ++ ts10 ++ ts11
    ++ ts12 ++ ts13 ++ ts14 ++ ts15 ++ ts16 ++ ts17 ++ ts18 ++ ts19 ++ ts20
    ++ ts21 ++ ts22

/-- The suffix of `PROMPT_TEMPLATE` starting right after `--DISCUSSION--`. -/
def discussionSuf : String := "#" ++ discussionSufZ

/-- The constant prompt template of `tasks.py` (the discussion placeholder
line reads `###--DISCUSSION--###`). -/
def PROMPT_TEMPLATE : String := discussionPre ++ "--DISCUSSION--" ++ discussionSuf

/-- The constant system prompt of `tasks.py`. -/
def SYSTEM_PROMPT : String :=
  "You are an assistant that deals with payment collections. Your role is to extract structured data from the email conversations and suggest the next best replies.\n"

/-- `create_prompt`: substitute the email discussion into the template. -/
def create_prompt (discussion : String) : String :=
  pyReplace PROMPT_TEMPLATE "--DISCUSSION--" discussion

/-- `create_system_prompt`: return the system prompt. -/
def create_system_prompt : String := SYSTEM_PROMPT

/-- `get_css_template`: the fixed CSS/header block of the reply. -/
def get_css_template : String :=
  "\n<!DOCTYPE html>\n<html>\n<head>\n  <style>\n    /* CSS styles */\n"
  ++ "    @import url(\x27https://fonts.googleapis.com/css2?family=Roboto:wght@400;700&display=swap\x27);\n"
  ++ "\n"
  ++ "    table \x7b\n      width: 100%;\n      font-family: \x27Roboto\x27, sans-serif;\n      border-collapse: collapse;\n    \x7d\n"
  ++ "\n"
  ++ "    thead th \x7b\n      padding: 12px;\n      text-align: left;\n      background-color: #f2f2f2;\n      color: #333333;\n      font-weight: bold;\n      border-bottom: 2px solid #dddddd;\n    \x7d\n"
  ++ "\n"
  ++ "    tbody td \x7b\n      padding: 12px;\n      border-bottom: 1px solid #dddddd;\n    \x7d\n"
  ++ "\n"
  ++ "    tbody tr:nth-child(even) \x7b\n      background-color: #f9f9f9;\n    \x7d\n"
  ++ "\n"
  ++ "    tbody tr:hover \x7b\n      background-color: #ebebeb;\n    \x7d\n"
  ++ "\n"
  ++ "    /* Optional: Resizable columns (requires JavaScript) */\n"
  ++ "    th.resizable \x7b\n      position: relative;\n      cursor: col-resize;\n    \x7d\n"
  ++ "\n"
  ++ "    th.resizable:after \x7b\n      content: \"\";\n      position: absolute;\n      top: 0;\n      right: -4px;\n      bottom: 0;\n      width: 8px;\n      background-color: #dddddd;\n      z-index: 1;\n    \x7d\n"
  ++ "\n"
  ++ "    th.resizable:hover:after \x7b\n      background-color: #cccccc;\n    \x7d\n"
  ++ "  </style>\n</head>\n"

/-- The fixed head of the rendered reply, up to the summary value (the
f-string opens with a newline, then the CSS template, then the body head). -/
def replyHead : String := "\n" ++ get_css_template ++ "\n<body>\n<h2>SUMMARY</h2>\n"

/-- The fixed part between the summary value and the suggested-reply value. -/
def replyMid : String := "\n\n<h2>SUGGESTED REPLY</h2>\n"

/-- The fixed table head between the suggested-reply value and the rows. -/
def replyTableHead : String :=
  "\n\n<h2>INVOICES</h2>\n<table>\n<thead>\n    <tr>\n"
  ++ "        <th class=\"resizable\">Invoice ID</th>\n"
  ++ "        <th class=\"resizable\">Value</th>\n"
  ++ "        <th class=\"resizable\">Status</th>\n"
  ++ "        <th class=\"resizable\">Payment promised</th>\n"
  ++ "        <th class=\"resizable\">Summary</th>\n"
  ++ "        <th class=\"resizable\">Action</th>\n"
  ++ "    </tr>\n</thead>\n<tbody>\n"

/-- The fixed tail appended after the table rows. -/
def replyFooter : String := "</tbody></table><br /><p>Bot Generated Reply Ends Here</p>"

/-- The opening of one invoice row, up to the invoice-id cell. -/
def rowLit0 : String := "\n        <tr>\n            <td>"

/-- The cell separator inside one invoice row. -/
def rowSep : String := "</td>\n            <td>"

/-- The closing of one invoice row, including the fixed action cell. -/
def rowLit5 : String :=
  "</td>\n            <td><a href=\"https://www.w3.org/Provider/Style/dummy.html\">Update AR</a></td>\n        </tr>\n"

/-- Render one invoice row of the reply table (lines 127-136 of `tasks.py`);
each field lookup uses `dict.get` with the documented placeholder default. -/
def renderRow (invoice : Json) : Except PyExc String := do
  let iid ← pyGet invoice "invoice_id" (Json.str "NO ID")
  let tv ← pyGet invoice "total_value" (Json.str "NO VALUE")
  let cur ← pyGet invoice "currency" (Json.str "")
  let st ← pyGet invoice "status" (Json.str "NO STATUS")
  let pd ← pyGet invoice "promised_payment_date" (Json.str "NO PROMISED DATE")
  let sm ← pyGet invoice "summary" (Json.str "NO SUMMARY")
  .ok (rowLit0 ++ pyStr iid ++ rowSep ++ pyStr tv ++ " " ++ pyStr cur ++ rowSep
      ++ pyStr st ++ rowSep ++ pyStr pd ++ rowSep ++ pyStr sm ++ rowLit5)

/-- Render all invoice rows in list order, concatenating them. -/
def renderRows : List Json → Except PyExc String
  | [] => .ok ""
  | inv :: rest => do
    let r ← renderRow inv
    let rs ← renderRows rest
    .ok (r ++ rs)

/-- The body of `construct_email_reply` after a successful parse: build the
HTML reply from the decoded JSON (lines 103-140 of `tasks.py`).  Exceptions
raised here are NOT caught by the function's `try` block. -/
def renderReply (json_data : Json) : Except PyExc String := do
  let summary ← pyGet json_data "summary" (Json.str "No summary was returned")
  let suggested ← pyGet json_data "suggested_reply" (Json.str "No suggested reply was returned")
  let invoicesVal ← pyGet json_data "invoices" (Json.arr [])
  let invs ← pyIter invoicesVal
  let rows ← renderRows invs
  .ok (replyHead ++ pyStr summary ++ replyMid ++ pyStr suggested
      ++ replyTableHead ++ rows ++ replyFooter)

/-- The guarded part of `construct_email_reply`: extract
`response["choices"][0]["message"]["content"]` and `json.loads` it
(line 95 of `tasks.py`, the body of the `try` block). -/
def extractParse (response : Json) : Except PyExc Json := do
  let choices ← pyIndexKey response "choices"
  let c0 ← pyIndexNat choices 0
  let msg ← pyIndexKey c0 "message"
  let content ← pyIndexKey msg "content"
  match content with
  | Json.str s => json_loads s
  | _ => .error (.typeError "the JSON object must be str, bytes or bytearray")

/-- `construct_email_reply`: on any exception from extracting or parsing the
message content, log and return the empty string; otherwise render the HTML
reply (whose own exceptions propagate). -/
def construct_email_reply (response : Json) : Except PyExc String :=
  match extractParse response with
  | .error _ => .ok ""
  | .ok json_data => renderReply json_data

/-- The email view a work item exposes (`.text`, `.subject`, `.from_.address`). -/
structure PyEmail where
  text : String
  subject : String
  from_address : String

/-- One input work item: the result of `item.email()` (which may raise) and
the raw `item.payload` mapping. -/
structure WorkItem where
  emailRes : Except PyExc PyEmail
  payload : Json

/-- One loop iteration's external inputs: the work item, the response object
returned by the chat-completion call, and whether `sg.send` raises. -/
structure LoopItem where
  item : WorkItem
  modelResponse : Json
  sendRaises : Bool

/-- The outbound SendGrid message constructed for one item. -/
structure Mail where
  from_email : String
  to_emails : String
  subject : String
  html_content : String
  headers : List (String × Json)

/-- Observable outcome of a run of `process_emails`: the prompts built, the
messages passed to `sg.send` (in order of attempt), each attempt's
raised-and-swallowed flag, and the uncaught exception that aborted the run,
if any. -/
structure RunResult where
  prompts : List String
  sends : List Mail
  sendOutcomes : List Bool
  raised : Option PyExc

/-- Lines 219-225 of `tasks.py`: get the email from the work item, and the
threading details `inReplyTo` and `" ".join(references)` from the payload. -/
def extractStage (item : WorkItem) : Except PyExc (PyEmail × Json × String) := do
  let email ← item.emailRes
  let emailObj ← pyIndexKey item.payload "email"
  let inReplyTo ← pyIndexKey emailObj "inReplyTo"
  let refsVal ← pyIndexKey emailObj "references"
  let references ← pyJoinSpace refsVal
  .ok (email, inReplyTo, references)

/-- Lines 239-242 of `tasks.py`: the debug prints subscript
`response["usage"]` and `response["choices"][0]["message"]["content"]`
outside of any `try` block. -/
def debugStage (response : Json) : Except PyExc Unit := do
  let _ ← pyIndexKey response "usage"
  let choices ← pyIndexKey response "choices"
  let c0 ← pyIndexNat choices 0
  let msg ← pyIndexKey c0 "message"
  let _ ← pyIndexKey msg "content"
  .ok ()

/-- The work-item loop of `process_emails` (lines 217-264 of `tasks.py`).
On extraction failure the loop logs and `break`s; an exception at the debug
prints or inside the rendering aborts the run; a `sg.send` exception is
caught, logged and swallowed, and the loop continues. -/
def process_emails (from_email : String) : List LoopItem → RunResult
  | [] => ⟨[], [], [], none⟩
  | li :: rest =>
    match extractStage li.item with
    | .error _ => ⟨[], [], [], none⟩
    | .ok (email, inReplyTo, references) =>
      let prompt := create_prompt email.text
      match debugStage li.modelResponse with
      | .error e => ⟨[prompt], [], [], some e⟩
      | .ok _ =>
        match construct_email_reply li.modelResponse with
        | .error e => ⟨[prompt], [], [], some e⟩
        | .ok reply =>
          let message : Mail :=
            ⟨from_email, email.from_address, "Re: " ++ email.subject, reply,
             [("in_reply_to", inReplyTo), ("References", Json.str references)]⟩
          let r := process_emails from_email rest
          ⟨prompt :: r.prompts, message :: r.sends,
           li.sendRaises :: r.sendOutcomes, r.raised⟩

/-- `needle` occurs contiguously inside `l`. -/
def occursIn (needle l : List Char) : Prop := ∃ p q, l = p ++ needle ++ q

/-- Bool-valued occurrence test matching `occursIn`. -/
def occursInB (needle : List Char) : List Char → Bool
  | [] => needle.isEmpty
  | c :: rest => isPre needle (c :: rest) || occursInB needle rest

/-- `needle` occurs contiguously inside the string `hay`. -/
def strContains (hay needle : String) : Prop := ∃ l r, hay = l ++ needle ++ r

/-- Number of positions of `l` at which `tok` matches (overlapping count). -/
def countA (tok : List Char) : List Char → Nat
  | [] => 0
  | c :: rest => (if isPre tok (c :: rest) = true then 1 else 0) + countA tok rest

/-- The last (up to) three characters of `l` contain no `<`; a junction whose
left side satisfies this allows no straddling `<tr>` match. -/
def SafeEnd (l : List Char) : Prop := ∀ c ∈ l.drop (l.length - 3), c ≠ '<'

/-- No character of `l` is `<`. -/
def NoLt (l : List Char) : Prop := ∀ c ∈ l, c ≠ '<'

instance (l : List Char) : Decidable (SafeEnd l) := by
  unfold SafeEnd
  infer_instance

instance (l : List Char) : Decidable (NoLt l) := by
  unfold NoLt
  infer_instance

/-- The row tag token. -/
def trTok : List Char := ['<', 't', 'r', '>']

/-- The discussion placeholder token of the prompt template. -/
def discToken : List Char := "--DISCUSSION--".data

/-- Concatenate a list of strings (in order, no separator). -/
def sjoin : List String → String
  | [] => ""
  | s :: rest => s ++ sjoin rest

/-- One field of an invoice row: `str(invoice.get(key, dflt))`. -/
def rowField (ikvs : List (String × Json)) (key dflt : String) : String :=
  pyStr ((lookupJ ikvs key).getD (Json.str dflt))

/-- The string an invoice row renders to when the invoice is a JSON object. -/
def renderRowStr (ikvs : List (String × Json)) : String :=
  rowLit0 ++ rowField ikvs "invoice_id" "NO ID"
    ++ rowSep ++ rowField ikvs "total_value" "NO VALUE"
    ++ " " ++ rowField ikvs "currency" ""
    ++ rowSep ++ rowField ikvs "status" "NO STATUS"
    ++ rowSep ++ rowField ikvs "promised_payment_date" "NO PROMISED DATE"
    ++ rowSep ++ rowField ikvs "summary" "NO SUMMARY"
    ++ rowLit5

/-- Row string of one invoice element (only meaningful for objects). -/
def rowOf : Json → String
  | Json.obj ikvs => renderRowStr ikvs
  | _ => ""

/-- The `invoices` entry of the parsed object, viewed as a list. -/
def invoicesOf (kvs : List (String × Json)) : List Json :=
  match lookupJ kvs "invoices" with
  | some (Json.arr xs) => xs
  | _ => []

/-- The parsed object's `invoices` entry, when present, is a list of JSON
objects (the shape the renderer handles without raising). -/
def InvoicesOk (kvs : List (String × Json)) : Prop :=
  match lookupJ kvs "invoices" with
  | none => True
  | some (Json.arr xs) => ∀ x ∈ xs, ∃ ikvs, x = Json.obj ikvs
  | some _ => False

/-- The summary text the reply renders (placeholder when absent). -/
def summaryStr (kvs : List (String × Json)) : String :=
  pyStr ((lookupJ kvs "summary").getD (Json.str "No summary was returned"))

/-- The suggested-reply text the reply renders (placeholder when absent). -/
def suggestedStr (kvs : List (String × Json)) : String :=
  pyStr ((lookupJ kvs "suggested_reply").getD (Json.str "No suggested reply was returned"))

/-- The full HTML reply rendered from a parsed object of shape `InvoicesOk`. -/
def renderedReplyStr (kvs : List (String × Json)) : String :=
  replyHead ++ summaryStr kvs ++ replyMid ++ suggestedStr kvs
    ++ replyTableHead ++ sjoin ((invoicesOf kvs).map rowOf) ++ replyFooter

/-- An invoice element that is an object carrying all six row fields. -/
def CompleteInvoice (x : Json) : Prop :=
  ∃ ikvs, x = Json.obj ikvs
    ∧ (lookupJ ikvs "invoice_id").isSome = true
    ∧ (lookupJ ikvs "total_value").isSome = true
    ∧ (lookupJ ikvs "currency").isSome = true
    ∧ (lookupJ ikvs "status").isSome = true
    ∧ (lookupJ ikvs "promised_payment_date").isSome = true
    ∧ (lookupJ ikvs "summary").isSome = true

/-- Success test for modelled Python computations. -/
def okB : Except PyExc α → Bool
  | .ok _ => true
  | .error _ => false

/-- A loop item whose extraction, debug prints and rendering all succeed
(its send attempt may still raise: that exception is swallowed). -/
def ItemOK (li : LoopItem) : Prop :=
  okB (extractStage li.item) = true
    ∧ okB (debugStage li.modelResponse) = true
    ∧ okB (construct_email_reply li.modelResponse) = true

/-- A model-response object carrying the given message content. -/
def mkResponse (content : String) : Json :=
  Json.obj [("usage", Json.str "usage"),
    ("choices", Json.arr [Json.obj [("message", Json.obj [("content", Json.str content)])]])]

/-- Response whose content is valid JSON but not an object. -/
def resp5 : Json := mkResponse "5"

/-- Response whose content is a small JSON object. -/
def respGood : Json := mkResponse "\x7b\"summary\": \"ok\"\x7d"

/-- Response whose content is not JSON at all. -/
def respNotJson : Json := mkResponse "not json"

/-- Response lacking the `choices` key. -/
def respNoChoices : Json := Json.obj [("usage", Json.str "usage")]

/-- A concrete inbound email. -/
def email0 : PyEmail :=
  ⟨"Hello, when will invoice INV-1 be paid?", "Invoices Q1", "customer@example.com"⟩

/-- A concrete inbound email whose subject already starts with `Re:`. -/
def emailRe : PyEmail :=
  ⟨"Ping on the invoices below.", "Re: Invoices Q1", "customer@example.com"⟩

/-- A concrete payload with threading metadata. -/
def payload0 : Json :=
  Json.obj [("email", Json.obj [("inReplyTo", Json.str "<abc@x>"),
    ("references", Json.arr [Json.str "<abc@x>", Json.str "<def@x>"])])]

/-- A concrete work item that extracts successfully. -/
def item0 : WorkItem := ⟨.ok email0, payload0⟩

/-- A concrete work item with the `Re:` subject. -/
def itemRe : WorkItem := ⟨.ok emailRe, payload0⟩

/-- A concrete work item whose payload lacks the `email` key, so that the
extraction stage raises `KeyError`. -/
def itemBad : WorkItem := ⟨.ok email0, Json.obj []⟩

/-- A fully successful loop item. -/
def liGood : LoopItem := ⟨item0, respGood, false⟩

/-- A loop item identical to `liGood` except that its send raises. -/
def liGoodSendFails : LoopItem := ⟨item0, respGood, true⟩

/-- A loop item with the `Re:` subject. -/
def liRe : LoopItem := ⟨itemRe, respGood, false⟩

/-- A loop item whose extraction fails. -/
def liBad : LoopItem := ⟨itemBad, respGood, false⟩

/-- A loop item whose model response lacks `choices`. -/
def liNoChoices : LoopItem := ⟨item0, respNoChoices, false⟩

/-- The HTML reply rendered for `respGood`. -/
def htmlGood : String :=
  match construct_email_reply respGood with
  | .ok h => h
  | .error _ => ""

/-- The first message sent in a run over `[liGood]`. -/
def mail0 : Mail :=
  (process_emails "bot@example.com" [liGood]).sends.headD ⟨"", "", "", "", []⟩

/-- The first message sent in a run over `[liRe]`. -/
def mailRe : Mail :=
  (process_emails "bot@example.com" [liRe]).sends.headD ⟨"", "", "", "", []⟩

/-- No match of `old` starts at any of the first `n` positions of `l`. -/
def noMatchPrefixB (old : List Char) : Nat → List Char → Bool
  | 0, _ => true
  | _ + 1, [] => true
  | n + 1, c :: rest => !isPre old (c :: rest) && noMatchPrefixB old n rest

/-- Right-nested concatenation of pieces onto a tail. -/
def chainL : List (List Char) → List Char → List Char
  | [], tail => tail
  | p :: ps, tail => p ++ chainL ps tail

/-- No match of `old` starts inside any piece (with full lookahead into the
rest of the chain and the tail). -/
def noMatchChainB (old : List Char) : List (List Char) → List Char → Bool
  | [], _ => true
  | p :: ps, tail =>
    noMatchPrefixB old p.length (p ++ chainL ps tail) && noMatchChainB old ps tail

/-- The pieces making up `discussionPre`. -/
def prePieces : List (List Char) :=
  [tp1.data, tp2.data, tp3.data, tp4.data, tp5.data, tp6.data, "#".data]

/-- The pieces making up `discussionSuf`. -/
def sufPieces : List (List Char) :=
  ["#".data, ts1.data, ts2.data, ts3.data, ts4.data, ts5.data, ts6.data,
   ts7.data, ts8.data, ts9.data, ts10.data, ts11.data, ts12.data, ts13.data,
   ts14.data, ts15.data, ts16.data, ts17.data, ts18.data, ts19.data,
   ts20.data, ts21.data, ts22.data]

/-- A concrete field-complete invoice record. -/
def inv1 : List (String × Json) :=
  [("invoice_id", Json.str "INV-1"), ("total_value", Json.num 100),
   ("currency", Json.str "USD"), ("status", Json.str "paid"),
   ("promised_payment_date", Json.str ""), ("summary", Json.str "paid already")]

/-- A second concrete field-complete invoice record. -/
def inv2 : List (String × Json) :=
  [("invoice_id", Json.str "INV-2"), ("total_value", Json.num 250),
   ("currency", Json.str "EUR"), ("status", Json.str "dispute"),
   ("promised_payment_date", Json.str "2024-01-31"), ("summary", Json.str "disputed")]

/-- A concrete parsed model response with two invoices. -/
def kvs7 : List (String × Json) :=
  [("summary", Json.str "ok"),
   ("invoices", Json.arr [Json.obj inv1, Json.obj inv2]),
   ("suggested_reply", Json.str "Thanks!")]

theorem str_eq_of_data {a b : String} (h : a.data = b.data) : a = b := by
  cases a
  cases b
  exact congrArg String.mk h

theorem strContains_exact (l m r : String) : strContains (l ++ m ++ r) m :=
  ⟨l, r, rfl⟩

theorem strContains_left {h m : String} (a : String) (hc : strContains h m) :
    strContains (a ++ h) m := by
  obtain ⟨l, r, rfl⟩ := hc
  exact ⟨a ++ l, r, by simp [String.append_assoc]⟩

theorem strContains_right {h m : String} (b : String) (hc : strContains h m) :
    strContains (h ++ b) m := by
  obtain ⟨l, r, rfl⟩ := hc
  exact ⟨l, r ++ b, by simp [String.append_assoc]⟩

theorem isPre_iff (t l : List Char) : isPre t l = true ↔ ∃ q, l = t ++ q := by
  induction t generalizing l with
  | nil => simp [isPre]
  | cons a as ih =>
    cases l with
    | nil =>
      simp only [isPre]
      constructor
      · intro hfalse
        cases hfalse
      · rintro ⟨q, hq⟩
        cases hq
    | cons b bs =>
      simp only [isPre, Bool.and_eq_true, beq_iff_eq, ih]
      constructor
      · rintro ⟨rfl, q, rfl⟩
        exact ⟨q, rfl⟩
      · rintro ⟨q, hq⟩
        injection hq with h1 h2
        exact ⟨h1.symm, q, h2⟩

theorem occursInB_iff (t l : List Char) : occursInB t l = true ↔ occursIn t l := by
  induction l with
  | nil =>
    simp only [occursInB, List.isEmpty_iff, occursIn]
    constructor
    · rintro rfl
      exact ⟨[], [], rfl⟩
    · rintro ⟨p, q, hq⟩
      rcases List.append_eq_nil.mp hq.symm with ⟨h1, h2⟩
      rcases List.append_eq_nil.mp h1 with ⟨-, h3⟩
      exact h3
  | cons c rest ih =>
    simp only [occursInB, Bool.or_eq_true, isPre_iff, ih]
    constructor
    · rintro (⟨q, hq⟩ | ⟨p, q, rfl⟩)
      · exact ⟨[], q, by simpa using hq⟩
      · exact ⟨c :: p, q, rfl⟩
    · rintro ⟨p, q, hq⟩
      cases p with
      | nil =>
        exact Or.inl ⟨q, by simpa using hq⟩
      | cons a p' =>
        injection hq with h1 h2
        exact Or.inr ⟨p', q, h2⟩

theorem occ_append_split {tok X Y : List Char} (h : occursIn tok (X ++ Y)) :
    occursIn tok X ∨ occursIn tok Y ∨
      ∃ t₁ t₂, tok = t₁ ++ t₂ ∧ t₁ ≠ [] ∧ t₂ ≠ [] ∧
        (∃ p, X = p ++ t₁) ∧ (∃ q, Y = t₂ ++ q) := by
  obtain ⟨p, q, hpq⟩ := h
  rw [List.append_assoc] at hpq
  rcases List.append_eq_append_iff.mp hpq with ⟨e, he1, he2⟩ | ⟨e, he1, he2⟩
  · -- p = X ++ e and Y = e ++ (tok ++ q): the occurrence lies inside Y
    right; left
    exact ⟨e, q, by rw [he2, List.append_assoc]⟩
  · -- X = p ++ e and tok ++ q = e ++ Y
    rcases List.append_eq_append_iff.mp he2 with ⟨f, hf1, hf2⟩ | ⟨f, hf1, hf2⟩
    · -- e = tok ++ f and q = f ++ Y: the occurrence lies inside X
      left
      exact ⟨p, f, by rw [he1, hf1, List.append_assoc]⟩
    · -- tok = e ++ f and Y = f ++ q
      cases he : e with
      | nil =>
        right; left
        subst he
        simp only [List.nil_append] at hf1
        exact ⟨[], q, by rw [hf2, ← hf1, List.nil_append]⟩
      | cons a as =>
        cases hf : f with
        | nil =>
          left
          subst hf
          simp only [List.append_nil] at hf1
          exact ⟨p, [], by rw [he1, ← hf1, List.append_nil]⟩
        | cons b bs =>
          right; right
          exact ⟨e, f, hf1, by simp [he], by simp [hf], ⟨p, he1⟩, ⟨q, hf2⟩⟩

theorem isPre_self_append (t q : List Char) : isPre t (t ++ q) = true :=
  (isPre_iff t (t ++ q)).mpr ⟨q, rfl⟩

theorem pyReplaceAux_walk {old : List Char} (new A tail : List Char)
    (h : noMatchPrefixB old A.length (A ++ tail) = true) :
    pyReplaceAux old new (A ++ tail) = A ++ pyReplaceAux old new tail := by
  induction A with
  | nil => simp
  | cons c rest ih =>
    rw [List.cons_append] at h ⊢
    rw [List.length_cons] at h
    simp only [noMatchPrefixB, Bool.and_eq_true, Bool.not_eq_true'] at h
    obtain ⟨h1, h2⟩ := h
    simp only [pyReplaceAux]
    rw [dif_neg]
    · rw [ih h2, List.cons_append]
    · rintro ⟨-, hpre⟩
      rw [h1] at hpre
      cases hpre

theorem pyReplaceAux_hit {old : List Char} (new B : List Char)
    (hold : 0 < old.length) :
    pyReplaceAux old new (old ++ B) = new ++ pyReplaceAux old new B := by
  cases old with
  | nil => simp at hold
  | cons o os =>
    rw [List.cons_append]
    simp only [pyReplaceAux]
    rw [dif_pos]
    · have hdrop : (o :: (os ++ B)).drop (o :: os).length = B := by
        simp only [List.length_cons, List.drop_succ_cons]
        simpa using List.drop_append 0
      rw [hdrop]
    · exact ⟨by simp, by rw [← List.cons_append]; exact isPre_self_append _ _⟩


theorem chainL_walk (old new : List Char) (ps : List (List Char)) (tail : List Char)
    (h : noMatchChainB old ps tail = true) :
    pyReplaceAux old new (chainL ps tail) = chainL ps (pyReplaceAux old new tail) := by
  induction ps with
  | nil => rfl
  | cons p ps ih =>
    simp only [noMatchChainB, Bool.and_eq_true] at h
    obtain ⟨h1, h2⟩ := h
    simp only [chainL]
    rw [pyReplaceAux_walk new p (chainL ps tail) h1, ih h2]

theorem discussionPre_chain (tail : List Char) :
    discussionPre.data ++ tail = chainL prePieces tail := by
  simp only [discussionPre, discussionPreA, prePieces, chainL, String.data_append,
    List.append_assoc]

theorem discussionSuf_chain : discussionSuf.data = chainL sufPieces [] := by
  simp only [discussionSuf, discussionSufZ, sufPieces, chainL, String.data_append,
    List.append_assoc, List.append_nil]

set_option maxRecDepth 8000 in
theorem create_prompt_eq (s : String) :
    create_prompt s = discussionPre ++ s ++ discussionSuf := by
  apply str_eq_of_data
  have hlhs : (create_prompt s).data
      = pyReplaceAux discToken s.data PROMPT_TEMPLATE.data := rfl
  have hd : PROMPT_TEMPLATE.data
      = chainL prePieces (discToken ++ discussionSuf.data) := by
    show (discussionPre ++ "--DISCUSSION--" ++ discussionSuf).data = _
    rw [String.data_append, String.data_append, List.append_assoc, discussionPre_chain]
    rfl
  rw [hlhs, hd]
  rw [chainL_walk discToken s.data prePieces _ (by decide)]
  rw [@pyReplaceAux_hit discToken s.data discussionSuf.data (by decide)]
  rw [discussionSuf_chain, chainL_walk discToken s.data sufPieces [] (by decide)]
  rw [show pyReplaceAux discToken s.data [] = [] from by simp [pyReplaceAux],
    ← discussionSuf_chain]
  rw [String.data_append, String.data_append, List.append_assoc, discussionPre_chain]

theorem noMatchPrefix_kills {old : List Char} (A tail p q : List Char)
    (h : noMatchPrefixB old A.length (A ++ tail) = true)
    (heq : A ++ tail = p ++ old ++ q) : A.length ≤ p.length := by
  induction A generalizing p tail with
  | nil => simp
  | cons c rest ih =>
    rw [List.append_assoc] at heq
    cases p with
    | nil =>
      exfalso
      simp only [List.nil_append] at heq
      simp only [List.length_cons, List.cons_append, noMatchPrefixB,
        Bool.and_eq_true, Bool.not_eq_true', List.append_eq] at h
      have hpre : isPre old (c :: (rest ++ tail)) = true := by
        rw [isPre_iff]
        exact ⟨q, by rw [← heq]; rw [List.cons_append]⟩
      rw [h.1] at hpre
      cases hpre
    | cons a p' =>
      simp only [List.cons_append] at heq
      injection heq with h1 h2
      simp only [List.length_cons, List.cons_append, noMatchPrefixB,
        Bool.and_eq_true, Bool.not_eq_true', List.append_eq] at h
      have := ih tail p' h.2 (by rw [h2, List.append_assoc])
      simp only [List.length_cons]
      omega

theorem noOccChain {old : List Char} (hold : old ≠ []) (ps : List (List Char))
    (h : noMatchChainB old ps [] = true) : ¬ occursIn old (chainL ps []) := by
  induction ps with
  | nil =>
    rintro ⟨p, q, hpq⟩
    simp only [chainL] at hpq
    rcases List.append_eq_nil.mp hpq.symm with ⟨h1, -⟩
    rcases List.append_eq_nil.mp h1 with ⟨-, h2⟩
    exact hold h2
  | cons piece ps ih =>
    simp only [noMatchChainB, Bool.and_eq_true] at h
    obtain ⟨h1, h2⟩ := h
    rintro ⟨p, q, hpq⟩
    simp only [chainL] at hpq
    have hlen := noMatchPrefix_kills piece (chainL ps []) p q h1 hpq
    rcases List.append_eq_append_iff.mp
        (show piece ++ chainL ps [] = p ++ (old ++ q) by
          rw [hpq, List.append_assoc]) with ⟨e, he1, he2⟩ | ⟨e, he1, he2⟩
    · exact ih h2 ⟨e, q, by rw [he2, List.append_assoc]⟩
    · have he0 : e = [] := by
        have hl : piece.length = p.length + e.length := by
          rw [he1, List.length_append]
        exact List.eq_nil_of_length_eq_zero (by omega)
      subst he0
      simp only [List.append_nil, List.nil_append] at he1 he2
      exact ih h2 ⟨[], q, by rw [← he2]; simp⟩

theorem mem_of_append_single {X A0 p t : List Char} {c : Char}
    (hX : X = A0 ++ [c]) (hsplit : X = p ++ t) (ht : t ≠ []) : c ∈ t := by
  rcases List.append_eq_append_iff.mp (hX ▸ hsplit : A0 ++ [c] = p ++ t)
      with ⟨e, he1, he2⟩ | ⟨e, he1, he2⟩
  · cases e with
    | nil =>
      simp only [List.nil_append] at he2
      rw [← he2]
      exact List.mem_singleton.mpr rfl
    | cons a e' =>
      injection he2 with h1 h2
      rcases List.append_eq_nil.mp h2.symm with ⟨-, h3⟩
      exact absurd h3 ht
  · rw [he2]
    exact List.mem_append.mpr (Or.inr (List.mem_singleton.mpr rfl))

set_option maxRecDepth 8000 in
theorem tok_not_in_pre : ¬ occursIn discToken discussionPre.data := by
  have h := discussionPre_chain []
  rw [List.append_nil] at h
  rw [h]
  exact noOccChain (by decide) prePieces (by decide)

set_option maxRecDepth 8000 in
theorem tok_not_in_suf : ¬ occursIn discToken discussionSuf.data := by
  rw [discussionSuf_chain]
  exact noOccChain (by decide) sufPieces (by decide)

/-- Claim C6: for any input string `s` not containing the literal placeholder
token `--DISCUSSION--`, `create_prompt s` contains `s` verbatim as a
substring and the placeholder token does not occur anywhere in the output
(`create_prompt` is a pure function of its argument by construction). -/
theorem claim_C6 (s : String) (hs : occursInB discToken s.data = false) :
    strContains (create_prompt s) s
      ∧ ¬ occursIn discToken (create_prompt s).data := by
  constructor
  · rw [create_prompt_eq]
    exact strContains_exact discussionPre s discussionSuf
  · rw [create_prompt_eq]
    intro hocc
    have hno : '#' ∉ discToken := by decide
    have hdata : (discussionPre ++ s ++ discussionSuf).data
        = discussionPre.data ++ (s.data ++ discussionSuf.data) := by
      rw [String.data_append, String.data_append, List.append_assoc]
    rw [hdata] at hocc
    rcases occ_append_split hocc with h1 | h2 | ⟨t₁, t₂, hteq, ht1, ht2, ⟨p, hp⟩, ⟨q, hq⟩⟩
    · exact tok_not_in_pre h1
    · rcases occ_append_split h2 with h3 | h4 | ⟨t₁, t₂, hteq, ht1, ht2, ⟨p, hp⟩, ⟨q, hq⟩⟩
      · have hb := (occursInB_iff discToken s.data).mpr h3
        rw [hs] at hb
        cases hb
      · exact tok_not_in_suf h4
      · have hsd : discussionSuf.data = '#' :: discussionSufZ.data := by
          show ("#" ++ discussionSufZ).data = _
          rw [String.data_append]
          rfl
        rw [hsd] at hq
        cases t₂ with
        | nil => exact ht2 rfl
        | cons a t₂' =>
          rw [List.cons_append] at hq
          injection hq with hq1 hq2
          refine hno ?_
          rw [hteq]
          exact List.mem_append.mpr (Or.inr (by rw [← hq1]; exact List.mem_cons_self '#' t₂'))
    · have hpd : discussionPre.data = discussionPreA.data ++ ['#'] := by
        show (discussionPreA ++ "#").data = _
        rw [String.data_append]
      have hmemt : '#' ∈ t₁ := mem_of_append_single hpd hp ht1
      refine hno ?_
      rw [hteq]
      exact List.mem_append.mpr (Or.inl hmemt)

/-- Witness for C6 at the concrete discussion `Hello there`. -/
theorem claim_C6_witness :
    occursInB discToken "Hello there".data = false
      ∧ (strContains (create_prompt "Hello there") "Hello there"
        ∧ ¬ occursIn discToken (create_prompt "Hello there").data) :=
  ⟨by decide, claim_C6 "Hello there" (by decide)⟩

theorem except_bind_ok {α β : Type} (a : α) (f : α → Except PyExc β) :
    (Except.ok a : Except PyExc α) >>= f = f a := rfl

theorem renderRow_obj (ikvs : List (String × Json)) :
    renderRow (Json.obj ikvs) = .ok (renderRowStr ikvs) := rfl

theorem renderRows_ok {xs : List Json} (h : ∀ x ∈ xs, ∃ ikvs, x = Json.obj ikvs) :
    renderRows xs = .ok (sjoin (xs.map rowOf)) := by
  induction xs with
  | nil => rfl
  | cons x rest ih =>
    obtain ⟨ikvs, rfl⟩ := h x (List.mem_cons_self x rest)
    have hrest := ih (fun y hy => h y (List.mem_cons_of_mem _ hy))
    show (renderRow (Json.obj ikvs)) >>= (fun r => renderRows rest >>= fun rs => .ok (r ++ rs)) = _
    rw [renderRow_obj, except_bind_ok, hrest, except_bind_ok]
    rfl

theorem pyIter_invoices {kvs : List (String × Json)} (h : InvoicesOk kvs) :
    pyIter ((lookupJ kvs "invoices").getD (Json.arr [])) = .ok (invoicesOf kvs) := by
  unfold InvoicesOk at h
  unfold invoicesOf
  cases hl : lookupJ kvs "invoices" with
  | none => rfl
  | some v =>
    rw [hl] at h
    cases v with
    | arr xs => rfl
    | null => exact h.elim
    | bool b => exact h.elim
    | num n => exact h.elim
    | str s => exact h.elim
    | obj o => exact h.elim

theorem invoicesOf_obj {kvs : List (String × Json)} (h : InvoicesOk kvs) :
    ∀ x ∈ invoicesOf kvs, ∃ ikvs, x = Json.obj ikvs := by
  intro x hx
  unfold InvoicesOk at h
  unfold invoicesOf at hx
  cases hl : lookupJ kvs "invoices" with
  | none =>
    rw [hl] at hx
    cases hx
  | some v =>
    rw [hl] at h hx
    cases v with
    | arr xs => exact h x hx
    | null => exact h.elim
    | bool b => exact h.elim
    | num n => exact h.elim
    | str s => exact h.elim
    | obj o => exact h.elim

theorem renderReply_obj {kvs : List (String × Json)} (h : InvoicesOk kvs) :
    renderReply (Json.obj kvs) = .ok (renderedReplyStr kvs) := by
  have step : renderReply (Json.obj kvs)
      = (pyIter ((lookupJ kvs "invoices").getD (Json.arr []))
          >>= fun invs => renderRows invs
          >>= fun rows => .ok (replyHead ++ summaryStr kvs ++ replyMid
            ++ suggestedStr kvs ++ replyTableHead ++ rows ++ replyFooter)) := rfl
  rw [step, pyIter_invoices h, except_bind_ok, renderRows_ok (invoicesOf_obj h),
    except_bind_ok]
  rfl

theorem except_bind_error {α β : Type} (e : PyExc) (f : α → Except PyExc β) :
    (Except.error e : Except PyExc α) >>= f = .error e := rfl

theorem str_append_empty (s : String) : s ++ "" = s := by
  apply str_eq_of_data
  rw [String.data_append]
  exact List.append_nil s.data

theorem str_empty_append (s : String) : "" ++ s = s := by
  apply str_eq_of_data
  rw [String.data_append]
  rfl

theorem strContains_end (x m : String) : strContains (x ++ m) m :=
  ⟨x, "", by rw [str_append_empty]⟩

theorem sjoin_mem_split {α : Type} (f : α → String) {x : α} {xs : List α}
    (hmem : x ∈ xs) : ∃ l r, sjoin (xs.map f) = l ++ f x ++ r := by
  induction xs with
  | nil => cases hmem
  | cons y ys ih =>
    rcases List.mem_cons.mp hmem with rfl | hmem'
    · refine ⟨"", sjoin (ys.map f), ?_⟩
      rw [str_empty_append]
      rfl
    · obtain ⟨l, r, hl⟩ := ih hmem'
      refine ⟨f y ++ l, r, ?_⟩
      show f y ++ sjoin (ys.map f) = _
      rw [hl, String.append_assoc, String.append_assoc, String.append_assoc]

theorem renderReply_nonobj_err (j : Json)
    (hne : match j with | Json.obj _ => False | _ => True) :
    renderReply j = .error (.attributeError
      ("\x27" ++ jsonTypeName j ++ "\x27 object has no attribute \x27get\x27")) := by
  cases j with
  | obj kvs => exact hne.elim
  | null => rfl
  | bool b => rfl
  | num n => rfl
  | str s => rfl
  | arr xs => rfl

theorem renderReply_ok_shape {j : Json} {h : String} (hok : renderReply j = .ok h) :
    ∃ s1 s2 rows, h = replyHead ++ s1 ++ replyMid ++ s2 ++ replyTableHead
      ++ rows ++ replyFooter := by
  cases j with
  | obj kvs =>
    have step : renderReply (Json.obj kvs)
        = (pyIter ((lookupJ kvs "invoices").getD (Json.arr []))
            >>= fun invs => renderRows invs
            >>= fun rows => .ok (replyHead ++ summaryStr kvs ++ replyMid
              ++ suggestedStr kvs ++ replyTableHead ++ rows ++ replyFooter)) := rfl
    rw [step] at hok
    cases hit : pyIter ((lookupJ kvs "invoices").getD (Json.arr [])) with
    | error e =>
      rw [hit, except_bind_error] at hok
      cases hok
    | ok invs =>
      rw [hit, except_bind_ok] at hok
      cases hrr : renderRows invs with
      | error e =>
        rw [hrr, except_bind_error] at hok
        cases hok
      | ok rows =>
        rw [hrr, except_bind_ok] at hok
        injection hok with hok1
        exact ⟨summaryStr kvs, suggestedStr kvs, rows, hok1.symm⟩
  | null => rw [renderReply_nonobj_err Json.null trivial] at hok; cases hok
  | bool b => rw [renderReply_nonobj_err (Json.bool b) trivial] at hok; cases hok
  | num n => rw [renderReply_nonobj_err (Json.num n) trivial] at hok; cases hok
  | str s => rw [renderReply_nonobj_err (Json.str s) trivial] at hok; cases hok
  | arr xs => rw [renderReply_nonobj_err (Json.arr xs) trivial] at hok; cases hok

theorem replyHead_append_ne (x : String) : replyHead ++ x ≠ "" := by
  intro heq
  have h1 : replyHead ++ x
      = "\n" ++ (get_css_template ++ ("\n<body>\n<h2>SUMMARY</h2>\n" ++ x)) := by
    show ("\n" ++ get_css_template ++ "\n<body>\n<h2>SUMMARY</h2>\n") ++ x = _
    rw [String.append_assoc, String.append_assoc]
  rw [h1] at heq
  have hd := congrArg String.data heq
  rw [String.data_append] at hd
  rw [show ("\n" : String).data = ['\n'] from rfl] at hd
  cases hd

theorem construct_err {r : Json} {e : PyExc} (h : extractParse r = .error e) :
    construct_email_reply r = .ok "" := by
  unfold construct_email_reply
  rw [h]

theorem construct_ok {r j : Json} (h : extractParse r = .ok j) :
    construct_email_reply r = renderReply j := by
  unfold construct_email_reply
  rw [h]

/-- Claim C1 counterexample: the message content `5` is valid JSON, so the
`try` block succeeds, but the rendering then raises `AttributeError` on
`json_data.get` — `construct_email_reply` raises instead of returning. -/
theorem claim_C1_counterexample :
    extractParse resp5 = .ok (Json.num 5)
      ∧ construct_email_reply resp5
        = .error (.attributeError "\x27int\x27 object has no attribute \x27get\x27") :=
  ⟨rfl, rfl⟩

/-- Claim C1 (amended): if extracting or JSON-parsing the message content
raises, `construct_email_reply` logs and returns the empty string; if the
content parses to a JSON object whose `invoices` entry, when present, is a
list of objects, it returns the rendered HTML without raising (missing
fields never make it fail); but for content that parses to valid JSON of
another shape the rendering raises (see the counterexample). -/
theorem claim_C1 (response : Json) :
    (∀ e, extractParse response = .error e → construct_email_reply response = .ok "")
    ∧ (∀ kvs, extractParse response = .ok (Json.obj kvs) → InvoicesOk kvs →
        ∃ html, construct_email_reply response = .ok html) := by
  constructor
  · intro e he
    exact construct_err he
  · intro kvs hk hik
    exact ⟨renderedReplyStr kvs, by rw [construct_ok hk, renderReply_obj hik]⟩

/-- Witness for C1 at the concrete responses `respNotJson` and `respGood`. -/
theorem claim_C1_witness :
    construct_email_reply respNotJson = .ok ""
      ∧ ∃ html, construct_email_reply respGood = .ok html :=
  ⟨(claim_C1 respNotJson).1 (.jsonDecodeError "Expecting value") rfl,
   (claim_C1 respGood).2 [("summary", Json.str "ok")] rfl trivial⟩

theorem lift_row_to_html {kvs : List (String × Json)} {xs : List Json}
    {ikvs : List (String × Json)} {m : String}
    (hxs : lookupJ kvs "invoices" = some (Json.arr xs))
    (hmem : Json.obj ikvs ∈ xs)
    (hrow : strContains (renderRowStr ikvs) m) :
    strContains (renderedReplyStr kvs) m := by
  have hinv : invoicesOf kvs = xs := by
    unfold invoicesOf
    rw [hxs]
  obtain ⟨l, r, hsplit⟩ := sjoin_mem_split rowOf hmem
  unfold renderedReplyStr
  rw [hinv]
  apply strContains_right
  apply strContains_left
  rw [hsplit]
  apply strContains_right
  apply strContains_left
  exact hrow

/-- Claim C2: for every parsed JSON object handed to the renderer (of the
shape the renderer handles), each absent field yields its documented
placeholder text in the rendered HTML, and a missing optional field such as
`currency` (whose default is the empty string) never causes a failure. -/
theorem claim_C2 (kvs : List (String × Json)) (hik : InvoicesOk kvs) :
    ∃ html, renderReply (Json.obj kvs) = .ok html
      ∧ (lookupJ kvs "summary" = none →
          strContains html "No summary was returned")
      ∧ (lookupJ kvs "suggested_reply" = none →
          strContains html "No suggested reply was returned")
      ∧ (∀ xs, lookupJ kvs "invoices" = some (Json.arr xs) →
          ∀ ikvs, Json.obj ikvs ∈ xs →
            (lookupJ ikvs "invoice_id" = none → strContains html "NO ID")
            ∧ (lookupJ ikvs "total_value" = none → strContains html "NO VALUE")
            ∧ (lookupJ ikvs "status" = none → strContains html "NO STATUS")
            ∧ (lookupJ ikvs "promised_payment_date" = none →
                strContains html "NO PROMISED DATE")
            ∧ (lookupJ ikvs "summary" = none → strContains html "NO SUMMARY")
            ∧ (lookupJ ikvs "currency" = none → strContains html "")) := by
  refine ⟨renderedReplyStr kvs, renderReply_obj hik, ?_, ?_, ?_⟩
  · intro hn
    have hs : summaryStr kvs = "No summary was returned" := by
      unfold summaryStr
      rw [hn]
      rfl
    unfold renderedReplyStr
    rw [hs]
    apply strContains_right
    apply strContains_right
    apply strContains_right
    apply strContains_right
    apply strContains_right
    exact strContains_end _ _
  · intro hn
    have hs : suggestedStr kvs = "No suggested reply was returned" := by
      unfold suggestedStr
      rw [hn]
      rfl
    unfold renderedReplyStr
    rw [hs]
    apply strContains_right
    apply strContains_right
    apply strContains_right
    exact strContains_end _ _
  · intro xs hxs ikvs hmem
    refine ⟨?_, ?_, ?_, ?_, ?_, ?_⟩
    · intro hnone
      have hF : rowField ikvs "invoice_id" "NO ID" = "NO ID" := by
        unfold rowField
        rw [hnone]
        rfl
      apply lift_row_to_html hxs hmem
      unfold renderRowStr
      rw [hF]
      apply strContains_right
      apply strContains_right
      apply strContains_right
      apply strContains_right
      apply strContains_right
      apply strContains_right
      apply strContains_right
      apply strContains_right
      apply strContains_right
      apply strContains_right
      apply strContains_right
      exact strContains_end _ _
    · intro hnone
      have hF : rowField ikvs "total_value" "NO VALUE" = "NO VALUE" := by
        unfold rowField
        rw [hnone]
        rfl
      apply lift_row_to_html hxs hmem
      unfold renderRowStr
      rw [hF]
      apply strContains_right
      apply strContains_right
      apply strContains_right
      apply strContains_right
      apply strContains_right
      apply strContains_right
      apply strContains_right
      apply strContains_right
      apply strContains_right
      exact strContains_end _ _
    · intro hnone
      have hF : rowField ikvs "status" "NO STATUS" = "NO STATUS" := by
        unfold rowField
        rw [hnone]
        rfl
      apply lift_row_to_html hxs hmem
      unfold renderRowStr
      rw [hF]
      apply strContains_right
      apply strContains_right
      apply strContains_right
      apply strContains_right
      apply strContains_right
      exact strContains_end _ _
    · intro hnone
      have hF : rowField ikvs "promised_payment_date" "NO PROMISED DATE"
          = "NO PROMISED DATE" := by
        unfold rowField
        rw [hnone]
        rfl
      apply lift_row_to_html hxs hmem
      unfold renderRowStr
      rw [hF]
      apply strContains_right
      apply strContains_right
      apply strContains_right
      exact strContains_end _ _
    · intro hnone
      have hF : rowField ikvs "summary" "NO SUMMARY" = "NO SUMMARY" := by
        unfold rowField
        rw [hnone]
        rfl
      apply lift_row_to_html hxs hmem
      unfold renderRowStr
      rw [hF]
      apply strContains_right
      exact strContains_end _ _
    · intro hnone
      have hF : rowField ikvs "currency" "" = "" := by
        unfold rowField
        rw [hnone]
        rfl
      apply lift_row_to_html hxs hmem
      unfold renderRowStr
      rw [hF]
      apply strContains_right
      apply strContains_right
      apply strContains_right
      apply strContains_right
      apply strContains_right
      apply strContains_right
      apply strContains_right
      exact strContains_end _ _

/-- Witness for C2 at a concrete object missing every optional field. -/
theorem claim_C2_witness :
    InvoicesOk [("invoices", Json.arr [Json.obj [("status", Json.str "paid")]])]
      ∧ ∃ html,
        renderReply (Json.obj [("invoices", Json.arr [Json.obj [("status", Json.str "paid")]])])
            = .ok html
          ∧ (lookupJ [("invoices", Json.arr [Json.obj [("status", Json.str "paid")]])]
                "summary" = none →
              strContains html "No summary was returned")
          ∧ (lookupJ [("invoices", Json.arr [Json.obj [("status", Json.str "paid")]])]
                "suggested_reply" = none →
              strContains html "No suggested reply was returned")
          ∧ (∀ xs, lookupJ [("invoices", Json.arr [Json.obj [("status", Json.str "paid")]])]
                "invoices" = some (Json.arr xs) →
              ∀ ikvs, Json.obj ikvs ∈ xs →
                (lookupJ ikvs "invoice_id" = none → strContains html "NO ID")
                ∧ (lookupJ ikvs "total_value" = none → strContains html "NO VALUE")
                ∧ (lookupJ ikvs "status" = none → strContains html "NO STATUS")
                ∧ (lookupJ ikvs "promised_payment_date" = none →
                    strContains html "NO PROMISED DATE")
                ∧ (lookupJ ikvs "summary" = none → strContains html "NO SUMMARY")
                ∧ (lookupJ ikvs "currency" = none → strContains html "")) := by
  have hik : InvoicesOk [("invoices", Json.arr [Json.obj [("status", Json.str "paid")]])] := by
    show ∀ x ∈ [Json.obj [("status", Json.str "paid")]], ∃ ikvs, x = Json.obj ikvs
    intro x hx
    rw [List.mem_singleton.mp hx]
    exact ⟨_, rfl⟩
  exact ⟨hik, claim_C2 _ hik⟩

/-- Claim C10: `construct_email_reply` returns the empty string exactly when
extracting or JSON-parsing the message content raised; whenever parsing
succeeds on a JSON object and the function returns, the returned HTML is
non-empty, begins with the fixed CSS/header template (after the f-string's
leading newline) and ends with the fixed footer. -/
theorem claim_C10 (response : Json) :
    (construct_email_reply response = .ok ""
        ↔ ∃ e, extractParse response = .error e)
    ∧ (∀ kvs html, extractParse response = .ok (Json.obj kvs) →
        construct_email_reply response = .ok html →
          html ≠ ""
          ∧ (∃ rest, html = "\n" ++ get_css_template ++ rest)
          ∧ (∃ pre, html = pre
              ++ "</tbody></table><br /><p>Bot Generated Reply Ends Here</p>")) := by
  constructor
  · constructor
    · intro h0
      cases hep : extractParse response with
      | error e => exact ⟨e, rfl⟩
      | ok j =>
        rw [construct_ok hep] at h0
        obtain ⟨s1, s2, rows, hshape⟩ := renderReply_ok_shape h0
        exfalso
        rw [String.append_assoc, String.append_assoc, String.append_assoc,
          String.append_assoc, String.append_assoc] at hshape
        exact replyHead_append_ne _ hshape.symm
    · rintro ⟨e, he⟩
      exact construct_err he
  · intro kvs html hep hok
    rw [construct_ok hep] at hok
    obtain ⟨s1, s2, rows, hshape⟩ := renderReply_ok_shape hok
    refine ⟨?_, ?_, ?_⟩
    · rw [hshape, String.append_assoc, String.append_assoc, String.append_assoc,
        String.append_assoc, String.append_assoc]
      exact replyHead_append_ne _
    · refine ⟨"\n<body>\n<h2>SUMMARY</h2>\n" ++ s1 ++ replyMid ++ s2
        ++ replyTableHead ++ rows ++ replyFooter, ?_⟩
      rw [hshape]
      show (replyHead ++ s1 ++ replyMid ++ s2 ++ replyTableHead ++ rows
        ++ replyFooter) = _
      rw [show replyHead = "\n" ++ get_css_template ++ "\n<body>\n<h2>SUMMARY</h2>\n"
        from rfl]
      simp only [String.append_assoc]
    · exact ⟨replyHead ++ s1 ++ replyMid ++ s2 ++ replyTableHead ++ rows,
        by rw [hshape]; rfl⟩

/-- Witness for C10 at the concrete responses `resp5` (non-empty non-object
parse, so the iff's right side fails) and `respGood`. -/
theorem claim_C10_witness :
    (construct_email_reply respGood = .ok ""
        ↔ ∃ e, extractParse respGood = .error e)
    ∧ (htmlGood ≠ ""
      ∧ (∃ rest, htmlGood = "\n" ++ get_css_template ++ rest)
      ∧ (∃ pre, htmlGood = pre
          ++ "</tbody></table><br /><p>Bot Generated Reply Ends Here</p>")) :=
  ⟨(claim_C10 respGood).1,
   (claim_C10 respGood).2 [("summary", Json.str "ok")] htmlGood rfl rfl⟩

theorem isPre_long (t : List Char) : ∀ (L Y : List Char), t.length ≤ L.length →
    isPre t (L ++ Y) = isPre t L := by
  induction t with
  | nil => intro L Y _; rfl
  | cons a as ih =>
    intro L Y hlen
    cases L with
    | nil => simp at hlen
    | cons b bs =>
      simp only [List.cons_append, isPre, List.append_eq]
      rw [ih bs Y (by simpa using hlen)]

theorem isPre_lt_false (c : Char) (l : List Char) (hc : c ≠ '<') :
    isPre trTok (c :: l) = false := by
  show (('<' == c) && isPre ['t', 'r', '>'] l) = false
  rw [show ('<' == c) = false from beq_eq_false_iff_ne.mpr (fun h => hc h.symm)]
  rfl

theorem NoLt_append {a b : List Char} (ha : NoLt a) (hb : NoLt b) : NoLt (a ++ b) := by
  intro c hc
  rcases List.mem_append.mp hc with h | h
  · exact ha c h
  · exact hb c h

theorem countA_nolt {L : List Char} (hl : NoLt L) (Y : List Char) :
    countA trTok (L ++ Y) = countA trTok Y := by
  induction L with
  | nil => rfl
  | cons c rest ih =>
    have hc : c ≠ '<' := hl c (List.mem_cons_self c rest)
    have hrest : NoLt rest := fun d hd => hl d (List.mem_cons_of_mem _ hd)
    show (if isPre trTok (c :: (rest ++ Y)) = true then 1 else 0)
        + countA trTok (rest ++ Y) = _
    rw [isPre_lt_false c _ hc, ih hrest]
    simp

theorem countA_nolt_zero {L : List Char} (hl : NoLt L) : countA trTok L = 0 := by
  have := countA_nolt hl []
  rw [List.append_nil] at this
  rw [this]
  rfl

theorem safeEnd_of_nolt {L : List Char} (h : NoLt L) : SafeEnd L :=
  fun c hc => h c (List.mem_of_mem_drop hc)

theorem safeEnd_append_right {B : List Char} (A : List Char) (hB : SafeEnd B)
    (hlen : 3 ≤ B.length) : SafeEnd (A ++ B) := by
  intro c hc
  apply hB c
  have harith : (A ++ B).length - 3 = A.length + (B.length - 3) := by
    rw [List.length_append]
    omega
  rw [harith, List.drop_append (B.length - 3)] at hc
  exact hc

theorem countA_append {X : List Char} (Y : List Char) (hs : SafeEnd X) :
    countA trTok (X ++ Y) = countA trTok X + countA trTok Y := by
  induction X with
  | nil => simp [countA]
  | cons c X' ih =>
    by_cases hlen : 3 ≤ X'.length
    · have hpre : isPre trTok ((c :: X') ++ Y) = isPre trTok (c :: X') :=
        isPre_long trTok (c :: X') Y (by simp [trTok]; omega)
      have hs' : SafeEnd X' := by
        intro d hd
        apply hs d
        have : (c :: X').length - 3 = (X'.length - 3) + 1 := by
          simp only [List.length_cons]
          omega
        rw [this, List.drop_succ_cons]
        exact hd
      show (if isPre trTok (c :: (X' ++ Y)) = true then 1 else 0)
          + countA trTok (X' ++ Y)
        = ((if isPre trTok (c :: X') = true then 1 else 0) + countA trTok X')
          + countA trTok Y
      rw [show (c : Char) :: (X' ++ Y) = (c :: X') ++ Y from rfl, hpre, ih hs']
      omega
    · have hnolt : NoLt (c :: X') := by
        intro d hd
        apply hs d
        have : (c :: X').length - 3 = 0 := by
          simp only [List.length_cons]
          omega
        rw [this]
        exact hd
      rw [countA_nolt hnolt Y, countA_nolt_zero hnolt]
      omega

theorem countA_row_core (F1 F2 F3 F4 F5 F6 : String)
    (h1 : NoLt F1.data) (h2 : NoLt F2.data) (h3 : NoLt F3.data)
    (h4 : NoLt F4.data) (h5 : NoLt F5.data) (h6 : NoLt F6.data) :
    countA trTok (rowLit0 ++ F1 ++ rowSep ++ F2 ++ " " ++ F3 ++ rowSep ++ F4
      ++ rowSep ++ F5 ++ rowSep ++ F6 ++ rowLit5).data = 1 := by
  have hchunks : rowLit0 ++ F1 ++ rowSep ++ F2 ++ " " ++ F3 ++ rowSep ++ F4
        ++ rowSep ++ F5 ++ rowSep ++ F6 ++ rowLit5
      = rowLit0 ++ ((F1 ++ rowSep) ++ ((F2 ++ " ") ++ ((F3 ++ rowSep)
        ++ ((F4 ++ rowSep) ++ ((F5 ++ rowSep) ++ (F6 ++ rowLit5)))))) := by
    simp only [String.append_assoc]
  rw [hchunks]
  simp only [String.data_append]
  rw [countA_append _ (by decide : SafeEnd rowLit0.data)]
  rw [countA_append _ (safeEnd_append_right F1.data (by decide) (by decide))]
  rw [countA_append _ (safeEnd_of_nolt (NoLt_append h2 (by decide)))]
  rw [countA_append _ (safeEnd_append_right F3.data (by decide) (by decide))]
  rw [countA_append _ (safeEnd_append_right F4.data (by decide) (by decide))]
  rw [countA_append _ (safeEnd_append_right F5.data (by decide) (by decide))]
  rw [countA_nolt h1, countA_nolt h2, countA_nolt h3, countA_nolt h4,
    countA_nolt h5, countA_nolt h6]
  rw [show countA trTok rowLit0.data = 1 from by decide]
  rw [show countA trTok rowSep.data = 0 from by decide]
  rw [show countA trTok (" " : String).data = 0 from by decide]
  rw [show countA trTok rowLit5.data = 0 from by decide]

theorem safeEnd_row (ikvs : List (String × Json)) : SafeEnd (renderRowStr ikvs).data := by
  have hshape : renderRowStr ikvs
      = (rowLit0 ++ rowField ikvs "invoice_id" "NO ID"
          ++ rowSep ++ rowField ikvs "total_value" "NO VALUE"
          ++ " " ++ rowField ikvs "currency" ""
          ++ rowSep ++ rowField ikvs "status" "NO STATUS"
          ++ rowSep ++ rowField ikvs "promised_payment_date" "NO PROMISED DATE"
          ++ rowSep ++ rowField ikvs "summary" "NO SUMMARY") ++ rowLit5 := rfl
  rw [hshape, String.data_append]
  exact safeEnd_append_right _ (by decide) (by decide)

theorem countA_rows {xs : List Json}
    (hcomp : ∀ x ∈ xs, CompleteInvoice x)
    (hlt : ∀ ikvs, Json.obj ikvs ∈ xs → ∀ key v, lookupJ ikvs key = some v →
        NoLt (pyStr v).data) :
    countA trTok (sjoin (xs.map rowOf)).data = xs.length := by
  induction xs with
  | nil => rfl
  | cons x rest ih =>
    obtain ⟨ikvs, rfl, c1, c2, c3, c4, c5, c6⟩ := hcomp x (List.mem_cons_self x rest)
    have hx : sjoin ((Json.obj ikvs :: rest).map rowOf)
        = renderRowStr ikvs ++ sjoin (rest.map rowOf) := rfl
    rw [hx, String.data_append, countA_append _ (safeEnd_row ikvs)]
    have hmem := List.mem_cons_self (Json.obj ikvs) rest
    have hf : ∀ key dflt, (lookupJ ikvs key).isSome = true →
        NoLt (rowField ikvs key dflt).data := by
      intro key dflt hsome
      cases hkey : lookupJ ikvs key with
      | none =>
        rw [hkey] at hsome
        cases hsome
      | some v =>
        have heq : rowField ikvs key dflt = pyStr v := by
          unfold rowField
          rw [hkey]
          rfl
        rw [heq]
        exact hlt ikvs hmem key v hkey
    have hrow : countA trTok (renderRowStr ikvs).data = 1 :=
      countA_row_core _ _ _ _ _ _ (hf _ _ c1) (hf _ _ c2) (hf _ _ c3)
        (hf _ _ c4) (hf _ _ c5) (hf _ _ c6)
    rw [hrow, ih (fun y hy => hcomp y (List.mem_cons_of_mem _ hy))
      (fun ikvs' hm k v hv => hlt ikvs' (List.mem_cons_of_mem _ hm) k v hv)]
    simp [Nat.add_comm]

/-- Claim C7: for a parsed object whose `invoices` is a list of
field-complete records, the rendered HTML's table body is exactly the
concatenation, in input order, of one rendered row per invoice element
(`sjoin (xs.map rowOf)`, via `List.map`, which neither sorts nor
deduplicates), each field's value occurs as a substring of its row, and —
whenever the rendered values contain no `<` — the body contains exactly
`xs.length` occurrences of `<tr>`, one per invoice element. -/
theorem claim_C7 (kvs : List (String × Json)) (xs : List Json)
    (hxs : lookupJ kvs "invoices" = some (Json.arr xs))
    (hcomp : ∀ x ∈ xs, CompleteInvoice x) :
    ∃ html, renderReply (Json.obj kvs) = .ok html
      ∧ html = replyHead ++ summaryStr kvs ++ replyMid ++ suggestedStr kvs
          ++ replyTableHead ++ sjoin (xs.map rowOf) ++ replyFooter
      ∧ (∀ ikvs, Json.obj ikvs ∈ xs →
          ∀ key ∈ (["invoice_id", "total_value", "currency", "status",
            "promised_payment_date", "summary"] : List String),
          ∀ v, lookupJ ikvs key = some v →
            strContains (rowOf (Json.obj ikvs)) (pyStr v))
      ∧ ((∀ ikvs, Json.obj ikvs ∈ xs → ∀ key v, lookupJ ikvs key = some v →
            NoLt (pyStr v).data) →
          countA trTok (sjoin (xs.map rowOf)).data = xs.length) := by
  have hik : InvoicesOk kvs := by
    unfold InvoicesOk
    rw [hxs]
    intro x hx
    obtain ⟨ikvs, rfl, -⟩ := hcomp x hx
    exact ⟨ikvs, rfl⟩
  have hinv : invoicesOf kvs = xs := by
    unfold invoicesOf
    rw [hxs]
  refine ⟨renderedReplyStr kvs, renderReply_obj hik, ?_, ?_, ?_⟩
  · unfold renderedReplyStr
    rw [hinv]
  · intro ikvs hmem key hkey v hv
    have hF : ∀ dflt, rowField ikvs key dflt = pyStr v := by
      intro dflt
      unfold rowField
      rw [hv]
      rfl
    show strContains (renderRowStr ikvs) (pyStr v)
    fin_cases hkey
    · unfold renderRowStr
      rw [hF "NO ID"]
      apply strContains_right
      apply strContains_right
      apply strContains_right
      apply strContains_right
      apply strContains_right
      apply strContains_right
      apply strContains_right
      apply strContains_right
      apply strContains_right
      apply strContains_right
      apply strContains_right
      exact strContains_end _ _
    · unfold renderRowStr
      rw [hF "NO VALUE"]
      apply strContains_right
      apply strContains_right
      apply strContains_right
      apply strContains_right
      apply strContains_right
      apply strContains_right
      apply strContains_right
      apply strContains_right
      apply strContains_right
      exact strContains_end _ _
    · unfold renderRowStr
      rw [hF ""]
      apply strContains_right
      apply strContains_right
      apply strContains_right
      apply strContains_right
      apply strContains_right
      apply strContains_right
      apply strContains_right
      exact strContains_end _ _
    · unfold renderRowStr
      rw [hF "NO STATUS"]
      apply strContains_right
      apply strContains_right
      apply strContains_right
      apply strContains_right
      apply strContains_right
      exact strContains_end _ _
    · unfold renderRowStr
      rw [hF "NO PROMISED DATE"]
      apply strContains_right
      apply strContains_right
      apply strContains_right
      exact strContains_end _ _
    · unfold renderRowStr
      rw [hF "NO SUMMARY"]
      apply strContains_right
      exact strContains_end _ _
  · intro hlt
    exact countA_rows hcomp hlt

/-- Witness for C7 at a concrete object with two complete invoices. -/
theorem claim_C7_witness :
    lookupJ kvs7 "invoices" = some (Json.arr [Json.obj inv1, Json.obj inv2])
      ∧ (∀ x ∈ [Json.obj inv1, Json.obj inv2], CompleteInvoice x)
      ∧ ∃ html, renderReply (Json.obj kvs7) = .ok html
          ∧ html = replyHead ++ summaryStr kvs7 ++ replyMid ++ suggestedStr kvs7
              ++ replyTableHead
              ++ sjoin ([Json.obj inv1, Json.obj inv2].map rowOf) ++ replyFooter
          ∧ (∀ ikvs, Json.obj ikvs ∈ [Json.obj inv1, Json.obj inv2] →
              ∀ key ∈ (["invoice_id", "total_value", "currency", "status",
                "promised_payment_date", "summary"] : List String),
              ∀ v, lookupJ ikvs key = some v →
                strContains (rowOf (Json.obj ikvs)) (pyStr v))
          ∧ ((∀ ikvs, Json.obj ikvs ∈ [Json.obj inv1, Json.obj inv2] →
                ∀ key v, lookupJ ikvs key = some v → NoLt (pyStr v).data) →
              countA trTok
                  (sjoin ([Json.obj inv1, Json.obj inv2].map rowOf)).data
                = [Json.obj inv1, Json.obj inv2].length) := by
  have hcomp : ∀ x ∈ [Json.obj inv1, Json.obj inv2], CompleteInvoice x := by
    intro x hx
    rcases List.mem_cons.mp hx with rfl | hx2
    · exact ⟨inv1, rfl, rfl, rfl, rfl, rfl, rfl, rfl⟩
    rcases List.mem_cons.mp hx2 with rfl | hx3
    · exact ⟨inv2, rfl, rfl, rfl, rfl, rfl, rfl, rfl⟩
    cases hx3
  exact ⟨rfl, hcomp, claim_C7 kvs7 [Json.obj inv1, Json.obj inv2] rfl hcomp⟩

theorem asStrList_strs (rs : List String) :
    asStrList (rs.map Json.str) = .ok rs := by
  induction rs with
  | nil => rfl
  | cons s rest ih =>
    show (asStrList (rest.map Json.str) >>= fun r => .ok (s :: r)) = _
    rw [ih, except_bind_ok]

theorem pyJoin_strs (rs : List String) :
    pyJoinSpace (Json.arr (rs.map Json.str)) = .ok (String.intercalate " " rs) := by
  have h1 : pyJoinSpace (Json.arr (rs.map Json.str))
      = (asStrList (rs.map Json.str) >>= fun ss => .ok (String.intercalate " " ss)) := rfl
  rw [h1, asStrList_strs, except_bind_ok]

theorem process_emails_cons_ok {fe : String} {li : LoopItem} {rest : List LoopItem}
    {em : PyEmail} {irtVal : Json} {refsStr : String} {reply : String}
    (hex : extractStage li.item = .ok (em, irtVal, refsStr))
    (hdbg : debugStage li.modelResponse = .ok ())
    (hcr : construct_email_reply li.modelResponse = .ok reply) :
    process_emails fe (li :: rest)
      = ⟨create_prompt em.text :: (process_emails fe rest).prompts,
         (⟨fe, em.from_address, "Re: " ++ em.subject, reply,
           [("in_reply_to", irtVal), ("References", Json.str refsStr)]⟩ : Mail)
           :: (process_emails fe rest).sends,
         li.sendRaises :: (process_emails fe rest).sendOutcomes,
         (process_emails fe rest).raised⟩ := by
  conv_lhs => rw [process_emails]
  rw [hex, hdbg, hcr]

theorem process_emails_cons_break {fe : String} {li : LoopItem}
    {rest : List LoopItem} {e : PyExc}
    (hex : extractStage li.item = .error e) :
    process_emails fe (li :: rest) = ⟨[], [], [], none⟩ := by
  conv_lhs => rw [process_emails]
  rw [hex]

theorem mem_sends_spec {fe : String} {items : List LoopItem} {m : Mail}
    (hm : m ∈ (process_emails fe items).sends) :
    ∃ li ∈ items, ∃ em irtVal refsStr reply,
      extractStage li.item = .ok (em, irtVal, refsStr)
      ∧ construct_email_reply li.modelResponse = .ok reply
      ∧ m = ⟨fe, em.from_address, "Re: " ++ em.subject, reply,
          [("in_reply_to", irtVal), ("References", Json.str refsStr)]⟩ := by
  induction items with
  | nil => cases hm
  | cons li rest ih =>
    cases hex : extractStage li.item with
    | error e =>
      rw [process_emails_cons_break hex] at hm
      cases hm
    | ok t =>
      obtain ⟨em, irtVal, refsStr⟩ := t
      cases hdbg : debugStage li.modelResponse with
      | error e =>
        rw [show process_emails fe (li :: rest)
            = ⟨[create_prompt em.text], [], [], some e⟩ from by
          conv_lhs => rw [process_emails]
          rw [hex, hdbg]] at hm
        cases hm
      | ok u =>
        cases u
        cases hcr : construct_email_reply li.modelResponse with
        | error e =>
          rw [show process_emails fe (li :: rest)
              = ⟨[create_prompt em.text], [], [], some e⟩ from by
            conv_lhs => rw [process_emails]
            rw [hex, hdbg, hcr]] at hm
          cases hm
        | ok reply =>
          rw [process_emails_cons_ok hex hdbg hcr] at hm
          rcases List.mem_cons.mp hm with rfl | hm'
          · refine ⟨li, List.mem_cons_self _ _, em, irtVal, refsStr, reply, ?_, ?_, ?_⟩
            · exact hex
            · exact hcr
            · rfl
          · obtain ⟨li', hli', em', irtVal', refsStr', reply', hex', hcr', hm2⟩ :=
              ih hm'
            exact ⟨li', List.mem_cons_of_mem _ hli', em', irtVal', refsStr',
              reply', hex', hcr', hm2⟩

theorem itemOK_parts {li : LoopItem} (h : ItemOK li) :
    ∃ em irtVal refsStr reply,
      extractStage li.item = .ok (em, irtVal, refsStr)
      ∧ debugStage li.modelResponse = .ok ()
      ∧ construct_email_reply li.modelResponse = .ok reply := by
  obtain ⟨h1, h2, h3⟩ := h
  cases hex : extractStage li.item with
  | error e =>
    unfold okB at h1
    rw [hex] at h1
    cases h1
  | ok t =>
    obtain ⟨em, irtVal, refsStr⟩ := t
    cases hdbg : debugStage li.modelResponse with
    | error e =>
      unfold okB at h2
      rw [hdbg] at h2
      cases h2
    | ok u =>
      cases u
      cases hcr : construct_email_reply li.modelResponse with
      | error e =>
        unfold okB at h3
        rw [hcr] at h3
        cases h3
      | ok reply => exact ⟨em, irtVal, refsStr, reply, rfl, rfl, rfl⟩

theorem run_all_ok {fe : String} {items : List LoopItem}
    (h : ∀ li ∈ items, ItemOK li) :
    (process_emails fe items).raised = none
    ∧ (process_emails fe items).sends.length = items.length
    ∧ (process_emails fe items).prompts.length = items.length
    ∧ (process_emails fe items).sendOutcomes
      = items.map (fun li => li.sendRaises) := by
  induction items with
  | nil => exact ⟨rfl, rfl, rfl, rfl⟩
  | cons li rest ih =>
    obtain ⟨em, irtVal, refsStr, reply, hex, hdbg, hcr⟩ :=
      itemOK_parts (h li (List.mem_cons_self li rest))
    obtain ⟨ih1, ih2, ih3, ih4⟩ := ih (fun y hy => h y (List.mem_cons_of_mem _ hy))
    rw [process_emails_cons_ok hex hdbg hcr]
    refine ⟨ih1, ?_, ?_, ?_⟩
    · simp [ih2]
    · simp [ih3]
    · simp [ih4]

theorem run_break {fe : String} {pre : List LoopItem} {bad : LoopItem}
    {post : List LoopItem} {e : PyExc}
    (hpre : ∀ li ∈ pre, ItemOK li)
    (hbad : extractStage bad.item = .error e) :
    process_emails fe (pre ++ bad :: post) = process_emails fe pre := by
  induction pre with
  | nil =>
    rw [List.nil_append, process_emails_cons_break hbad]
    rfl
  | cons li pres ih =>
    obtain ⟨em, irtVal, refsStr, reply, hex, hdbg, hcr⟩ :=
      itemOK_parts (hpre li (List.mem_cons_self li pres))
    rw [List.cons_append, process_emails_cons_ok hex hdbg hcr,
      process_emails_cons_ok hex hdbg hcr,
      ih (fun y hy => hpre y (List.mem_cons_of_mem _ hy))]

/-- Claim C3: every message passed to `sg.send` carries exactly the two
threading headers `in_reply_to` and `References`, taken from the item's
extraction stage; and when the payload's `email` entry carries `inReplyTo`
as a string and `references` as a list of strings, the header values are
that string verbatim and the space-join of that list (the `References`
header's standard serialization), respectively. -/
theorem claim_C3 (fe : String) (items : List LoopItem) (m : Mail)
    (hm : m ∈ (process_emails fe items).sends) :
    ∃ li ∈ items, ∃ em irtVal refsStr,
      extractStage li.item = .ok (em, irtVal, refsStr)
      ∧ m.headers = [("in_reply_to", irtVal), ("References", Json.str refsStr)]
      ∧ (∀ emailObj irt rs,
          pyIndexKey li.item.payload "email" = .ok emailObj →
          pyIndexKey emailObj "inReplyTo" = .ok (Json.str irt) →
          pyIndexKey emailObj "references" = .ok (Json.arr (rs.map Json.str)) →
            irtVal = Json.str irt ∧ refsStr = String.intercalate " " rs) := by
  obtain ⟨li, hli, em, irtVal, refsStr, reply, hex, hcr, rfl⟩ := mem_sends_spec hm
  refine ⟨li, hli, em, irtVal, refsStr, hex, rfl, ?_⟩
  intro emailObj irt rs hobj hirt hrefs
  unfold extractStage at hex
  cases hres : li.item.emailRes with
  | error e =>
    rw [hres, except_bind_error] at hex
    cases hex
  | ok em0 =>
    simp only [hres, except_bind_ok] at hex
    simp only [hobj, except_bind_ok] at hex
    simp only [hirt, except_bind_ok] at hex
    simp only [hrefs, except_bind_ok] at hex
    rw [pyJoin_strs] at hex
    simp only [except_bind_ok, Except.ok.injEq, Prod.mk.injEq] at hex
    obtain ⟨-, h2, h3⟩ := hex
    exact ⟨h2.symm, h3.symm⟩

/-- Witness for C3 at a concrete run of one item whose payload references
list has two entries. -/
theorem claim_C3_witness :
    mail0 ∈ (process_emails "bot@example.com" [liGood]).sends
      ∧ mail0.headers = [("in_reply_to", Json.str "<abc@x>"),
          ("References", Json.str "<abc@x> <def@x>")]
      ∧ (∃ li ∈ [liGood], ∃ em irtVal refsStr,
          extractStage li.item = .ok (em, irtVal, refsStr)
          ∧ mail0.headers
            = [("in_reply_to", irtVal), ("References", Json.str refsStr)]
          ∧ (∀ emailObj irt rs,
              pyIndexKey li.item.payload "email" = .ok emailObj →
              pyIndexKey emailObj "inReplyTo" = .ok (Json.str irt) →
              pyIndexKey emailObj "references"
                  = .ok (Json.arr (rs.map Json.str)) →
                irtVal = Json.str irt
                ∧ refsStr = String.intercalate " " rs)) := by
  have hs : (process_emails "bot@example.com" [liGood]).sends = [mail0] := rfl
  have hmem : mail0 ∈ (process_emails "bot@example.com" [liGood]).sends := by
    rw [hs]
    exact List.mem_singleton.mpr rfl
  exact ⟨hmem, rfl, claim_C3 "bot@example.com" [liGood] mail0 hmem⟩

/-- Claim C4: if extraction fails for one item, the whole run stops there:
the result equals the run over the preceding items alone — no prompt is
built and no send is attempted for the failing item or any later item, and
nothing is raised (the loop breaks). -/
theorem claim_C4 (fe : String) (pre : List LoopItem) (bad : LoopItem)
    (post : List LoopItem) (e : PyExc)
    (hpre : ∀ li ∈ pre, ItemOK li)
    (hbad : extractStage bad.item = .error e) :
    process_emails fe (pre ++ bad :: post) = process_emails fe pre
      ∧ (process_emails fe (pre ++ bad :: post)).raised = none
      ∧ (process_emails fe (pre ++ bad :: post)).sends.length = pre.length
      ∧ (process_emails fe (pre ++ bad :: post)).prompts.length = pre.length := by
  have hb := @run_break fe pre bad post e hpre hbad
  obtain ⟨r1, r2, r3, -⟩ := @run_all_ok fe pre hpre
  refine ⟨hb, ?_, ?_, ?_⟩
  · rw [hb]
    exact r1
  · rw [hb]
    exact r2
  · rw [hb]
    exact r3

/-- Witness for C4: two work items where the first fails extraction — zero
items are processed. -/
theorem claim_C4_witness :
    extractStage liBad.item = .error (PyExc.keyError "email")
      ∧ process_emails "bot@example.com" ([] ++ liBad :: [liGood])
          = process_emails "bot@example.com" []
      ∧ (process_emails "bot@example.com" ([] ++ liBad :: [liGood])).raised = none
      ∧ (process_emails "bot@example.com" ([] ++ liBad :: [liGood])).sends.length
        = ([] : List LoopItem).length
      ∧ (process_emails "bot@example.com" ([] ++ liBad :: [liGood])).prompts.length
        = ([] : List LoopItem).length :=
  ⟨rfl, claim_C4 "bot@example.com" [] liBad [liGood] (PyExc.keyError "email")
    (fun li h => absurd h (List.not_mem_nil li)) rfl⟩

/-- Claim C5: when every item's extraction, debug prints and rendering
succeed, the run never raises, one send is attempted per item (in
particular a send that raises is swallowed and the loop continues), and
each attempt's raised-and-swallowed outcome is recorded per item. -/
theorem claim_C5 (fe : String) (items : List LoopItem)
    (h : ∀ li ∈ items, ItemOK li) :
    (process_emails fe items).raised = none
      ∧ (process_emails fe items).sends.length = items.length
      ∧ (process_emails fe items).sendOutcomes
        = items.map (fun li => li.sendRaises) := by
  obtain ⟨r1, r2, -, r4⟩ := @run_all_ok fe items h
  exact ⟨r1, r2, r4⟩

/-- Witness for C5: two items where the first succeeds and the second's
send raises — exactly two send attempts occur and the run does not raise. -/
theorem claim_C5_witness :
    (∀ li ∈ [liGood, liGoodSendFails], ItemOK li)
      ∧ (process_emails "bot@example.com" [liGood, liGoodSendFails]).raised = none
      ∧ (process_emails "bot@example.com" [liGood, liGoodSendFails]).sends.length
        = [liGood, liGoodSendFails].length
      ∧ (process_emails "bot@example.com" [liGood, liGoodSendFails]).sendOutcomes
        = [liGood, liGoodSendFails].map (fun li => li.sendRaises) := by
  have hok : ∀ li ∈ [liGood, liGoodSendFails], ItemOK li := by
    intro li hli
    rcases List.mem_cons.mp hli with rfl | h2
    · exact ⟨rfl, rfl, rfl⟩
    rcases List.mem_cons.mp h2 with rfl | h3
    · exact ⟨rfl, rfl, rfl⟩
    cases h3
  exact ⟨hok, claim_C5 "bot@example.com" [liGood, liGoodSendFails] hok⟩

/-- Claim C8: every message passed to `sg.send` has subject exactly
`"Re: " ++` the original subject (no deduplication), to-address the
original sender, from-address the configured sender, and HTML body exactly
the renderer's output. -/
theorem claim_C8 (fe : String) (items : List LoopItem) (m : Mail)
    (hm : m ∈ (process_emails fe items).sends) :
    ∃ li ∈ items, ∃ em irtVal refsStr reply,
      extractStage li.item = .ok (em, irtVal, refsStr)
      ∧ construct_email_reply li.modelResponse = .ok reply
      ∧ m.subject = "Re: " ++ em.subject
      ∧ m.to_emails = em.from_address
      ∧ m.from_email = fe
      ∧ m.html_content = reply := by
  obtain ⟨li, hli, em, irtVal, refsStr, reply, hex, hcr, rfl⟩ := mem_sends_spec hm
  exact ⟨li, hli, em, irtVal, refsStr, reply, hex, hcr, rfl, rfl, rfl, rfl⟩

/-- Witness for C8 at a concrete run whose original subject already starts
with `Re:` — the outbound subject becomes `Re: Re: ...`. -/
theorem claim_C8_witness :
    mailRe ∈ (process_emails "bot@example.com" [liRe]).sends
      ∧ (∃ li ∈ [liRe], ∃ em irtVal refsStr reply,
          extractStage li.item = .ok (em, irtVal, refsStr)
          ∧ construct_email_reply li.modelResponse = .ok reply
          ∧ mailRe.subject = "Re: " ++ em.subject
          ∧ mailRe.to_emails = em.from_address
          ∧ mailRe.from_email = "bot@example.com"
          ∧ mailRe.html_content = reply)
      ∧ mailRe.subject = "Re: Re: Invoices Q1" := by
  have hs : (process_emails "bot@example.com" [liRe]).sends = [mailRe] := rfl
  have hmem : mailRe ∈ (process_emails "bot@example.com" [liRe]).sends := by
    rw [hs]
    exact List.mem_singleton.mpr rfl
  exact ⟨hmem, claim_C8 "bot@example.com" [liRe] mailRe hmem, rfl⟩

/-- Claim C9: a model response lacking `choices` makes the debug print raise
`KeyError` outside any `try`, aborting the whole run before any send — even
though `construct_email_reply`'s own handler would have coped with that
same response (returning the empty string), it never gets to run. -/
theorem claim_C9 :
    (process_emails "bot@example.com" [liNoChoices, liGood]).raised
        = some (PyExc.keyError "choices")
      ∧ (process_emails "bot@example.com" [liNoChoices, liGood]).sends = []
      ∧ (process_emails "bot@example.com" [liNoChoices, liGood]).prompts
        = [create_prompt email0.text]
      ∧ construct_email_reply respNoChoices = .ok "" :=
  ⟨rfl, rfl, rfl, rfl⟩
